import Mathlib

/-! HID device class driver: `src/class/hid/hid_device.c`

A shallow embedding of the device-side HID class driver of the tinyusb stack.

* The build configuration embedded is the one in which both boot roles exist:
  `CFG_TUD_HID_BOOT_PROTOCOL`, `CFG_TUD_HID_KEYBOARD`, `CFG_TUD_HID_MOUSE` and
  `CFG_TUD_HID_ASCII_TO_KEYCODE_LOOKUP` are all enabled.
* Machine integers are `Nat`; a byte read is reduced `% 256` where the source
  narrows a value.  The root-hub port argument `rhport` is a constant of the
  build (`TUD_OPT_RHPORT`) and is dropped.
* Everything the file takes from headers that are not part of the sources
  (macro constants, struct field offsets, `sizeof` values) is a field of
  `Headers`; the controller driver, the blocking delay, the descriptor set and
  the application callbacks are fields of `Env`, acting on an abstract state `σ`.
* Every call that leaves the file is appended to `World.calls`, oldest first.
-/

namespace HidDevice

/-! ## Constants and declarations taken from the headers -/

/-- The `HID_KEY_*` names that occur in `HID_ASCII_TO_KEYCODE`. -/
inductive hid_key where
  | HID_KEY_A | HID_KEY_B | HID_KEY_C | HID_KEY_D | HID_KEY_E | HID_KEY_F
  | HID_KEY_G | HID_KEY_H | HID_KEY_I | HID_KEY_J | HID_KEY_K | HID_KEY_L
  | HID_KEY_M | HID_KEY_N | HID_KEY_O | HID_KEY_P | HID_KEY_Q | HID_KEY_R
  | HID_KEY_S | HID_KEY_T | HID_KEY_U | HID_KEY_V | HID_KEY_W | HID_KEY_X
  | HID_KEY_Y | HID_KEY_Z
  | HID_KEY_1 | HID_KEY_2 | HID_KEY_3 | HID_KEY_4 | HID_KEY_5
  | HID_KEY_6 | HID_KEY_7 | HID_KEY_8 | HID_KEY_9 | HID_KEY_0
  | HID_KEY_RETURN | HID_KEY_ESCAPE | HID_KEY_BACKSPACE | HID_KEY_TAB
  | HID_KEY_SPACE | HID_KEY_MINUS | HID_KEY_EQUAL | HID_KEY_BRACKET_LEFT
  | HID_KEY_BRACKET_RIGHT | HID_KEY_BACKSLASH | HID_KEY_SEMICOLON
  | HID_KEY_APOSTROPHE | HID_KEY_GRAVE | HID_KEY_COMMA | HID_KEY_PERIOD
  | HID_KEY_SLASH | HID_KEY_DELETE
  deriving DecidableEq, Repr

/-- What `hid_device.c` uses from headers that are not among the sources:
the numeric value of every macro or enumerator it names, the offsets of the
descriptor fields it reads, and the `sizeof` values it uses. -/
structure Headers where
  /-- value of each `HID_KEY_*` macro -/
  HID_KEY : hid_key → Nat
  KEYBOARD_MODIFIER_LEFTSHIFT : Nat
  sizeof_hid_mouse_report_t : Nat
  DESC_OFFSET_LEN : Nat
  HID_DESC_TYPE_HID : Nat
  HID_DESC_TYPE_REPORT : Nat
  TUSB_DESC_ENDPOINT : Nat
  HID_SUBCLASS_BOOT : Nat
  HID_PROTOCOL_KEYBOARD : Nat
  HID_PROTOCOL_MOUSE : Nat
  sizeof_tusb_desc_interface_t : Nat
  sizeof_tusb_hid_descriptor_hid_t : Nat
  sizeof_tusb_desc_endpoint_t : Nat
  /-- offset of `bInterfaceNumber` in `tusb_desc_interface_t` -/
  itf_bInterfaceNumber : Nat
  /-- offset of `bInterfaceSubClass` in `tusb_desc_interface_t` -/
  itf_bInterfaceSubClass : Nat
  /-- offset of `bInterfaceProtocol` in `tusb_desc_interface_t` -/
  itf_bInterfaceProtocol : Nat
  /-- offset of `bDescriptorType` in `tusb_hid_descriptor_hid_t` -/
  hid_bDescriptorType : Nat
  /-- offset of `wReportLength` in `tusb_hid_descriptor_hid_t` -/
  hid_wReportLength : Nat
  /-- offset of `bDescriptorType` in `tusb_desc_endpoint_t` -/
  edpt_bDescriptorType : Nat
  /-- offset of `bEndpointAddress` in `tusb_desc_endpoint_t` -/
  edpt_bEndpointAddress : Nat
  TUSB_REQ_TYPE_STANDARD : Nat
  TUSB_REQ_TYPE_CLASS : Nat
  TUSB_REQ_GET_DESCRIPTOR : Nat
  HID_REQ_CONTROL_GET_REPORT : Nat
  HID_REQ_CONTROL_GET_IDLE : Nat
  HID_REQ_CONTROL_GET_PROTOCOL : Nat
  HID_REQ_CONTROL_SET_REPORT : Nat
  HID_REQ_CONTROL_SET_IDLE : Nat
  CFG_TUD_CTRL_BUFSIZE : Nat

/-- The values of USB 2.0 chapter 9 and of HID 1.11 (keyboard usage page),
used wherever a concrete set of headers is needed. -/
def usb_hid_key : hid_key → Nat
  | .HID_KEY_A => 0x04 | .HID_KEY_B => 0x05 | .HID_KEY_C => 0x06
  | .HID_KEY_D => 0x07 | .HID_KEY_E => 0x08 | .HID_KEY_F => 0x09
  | .HID_KEY_G => 0x0A | .HID_KEY_H => 0x0B | .HID_KEY_I => 0x0C
  | .HID_KEY_J => 0x0D | .HID_KEY_K => 0x0E | .HID_KEY_L => 0x0F
  | .HID_KEY_M => 0x10 | .HID_KEY_N => 0x11 | .HID_KEY_O => 0x12
  | .HID_KEY_P => 0x13 | .HID_KEY_Q => 0x14 | .HID_KEY_R => 0x15
  | .HID_KEY_S => 0x16 | .HID_KEY_T => 0x17 | .HID_KEY_U => 0x18
  | .HID_KEY_V => 0x19 | .HID_KEY_W => 0x1A | .HID_KEY_X => 0x1B
  | .HID_KEY_Y => 0x1C | .HID_KEY_Z => 0x1D
  | .HID_KEY_1 => 0x1E | .HID_KEY_2 => 0x1F | .HID_KEY_3 => 0x20
  | .HID_KEY_4 => 0x21 | .HID_KEY_5 => 0x22 | .HID_KEY_6 => 0x23
  | .HID_KEY_7 => 0x24 | .HID_KEY_8 => 0x25 | .HID_KEY_9 => 0x26
  | .HID_KEY_0 => 0x27
  | .HID_KEY_RETURN => 0x28 | .HID_KEY_ESCAPE => 0x29
  | .HID_KEY_BACKSPACE => 0x2A | .HID_KEY_TAB => 0x2B
  | .HID_KEY_SPACE => 0x2C | .HID_KEY_MINUS => 0x2D
  | .HID_KEY_EQUAL => 0x2E | .HID_KEY_BRACKET_LEFT => 0x2F
  | .HID_KEY_BRACKET_RIGHT => 0x30 | .HID_KEY_BACKSLASH => 0x31
  | .HID_KEY_SEMICOLON => 0x33 | .HID_KEY_APOSTROPHE => 0x34
  | .HID_KEY_GRAVE => 0x35 | .HID_KEY_COMMA => 0x36
  | .HID_KEY_PERIOD => 0x37 | .HID_KEY_SLASH => 0x38
  | .HID_KEY_DELETE => 0x4C

/-- A concrete set of headers with the values of the USB and HID standards. -/
def usb_headers : Headers where
  HID_KEY := usb_hid_key
  KEYBOARD_MODIFIER_LEFTSHIFT := 0x02
  sizeof_hid_mouse_report_t := 4
  DESC_OFFSET_LEN := 0
  HID_DESC_TYPE_HID := 0x21
  HID_DESC_TYPE_REPORT := 0x22
  TUSB_DESC_ENDPOINT := 0x05
  HID_SUBCLASS_BOOT := 1
  HID_PROTOCOL_KEYBOARD := 1
  HID_PROTOCOL_MOUSE := 2
  sizeof_tusb_desc_interface_t := 9
  sizeof_tusb_hid_descriptor_hid_t := 9
  sizeof_tusb_desc_endpoint_t := 7
  itf_bInterfaceNumber := 2
  itf_bInterfaceSubClass := 6
  itf_bInterfaceProtocol := 7
  hid_bDescriptorType := 1
  hid_wReportLength := 7
  edpt_bDescriptorType := 1
  edpt_bEndpointAddress := 2
  TUSB_REQ_TYPE_STANDARD := 0
  TUSB_REQ_TYPE_CLASS := 1
  TUSB_REQ_GET_DESCRIPTOR := 6
  HID_REQ_CONTROL_GET_REPORT := 0x01
  HID_REQ_CONTROL_GET_IDLE := 0x02
  HID_REQ_CONTROL_GET_PROTOCOL := 0x03
  HID_REQ_CONTROL_SET_REPORT := 0x09
  HID_REQ_CONTROL_SET_IDLE := 0x0A
  CFG_TUD_CTRL_BUFSIZE := 256

/-- The error codes of `tusb_error_t` that the file returns. -/
inductive tusb_error_t where
  | TUSB_ERROR_NONE
  | TUSB_ERROR_FAILED
  | TUSB_ERROR_HIDD_DESCRIPTOR_INTERFACE
  | TUSB_ERROR_DESCRIPTOR_CORRUPTED
  | TUSB_ERROR_DCD_FAILED
  deriving DecidableEq, Repr

/-! ## Data model -/

/-- The macro `REPORT_BUFSIZE`: max report len is the keyboard's 8 bytes plus one
byte of report id. -/
def REPORT_BUFSIZE : Nat := 9

/-- Type of `get_report_cb`: from the report type, the buffer and the requested
length to the returned length and the buffer as the callback leaves it. -/
abbrev get_report_cb_t (σ : Type) := σ → Nat → List Nat → Nat → (Nat × List Nat) × σ

/-- Type of `set_report_cb`: it returns nothing and acts on the outside only. -/
abbrev set_report_cb_t (σ : Type) := σ → Nat → List Nat → Nat → σ

/-- The struct `hidd_interface_t`.  A null pointer is `none`. -/
structure hidd_interface_t (σ : Type) where
  itf_num : Nat
  ep_in : Nat
  idle_rate : Nat
  report_id : Nat
  report_len : Nat
  report_desc : Option (List Nat)
  get_report_cb : Option (get_report_cb_t σ)
  set_report_cb : Option (set_report_cb_t σ)
  report_buf : List Nat

/-- Modelled from the spec: the struct `hid_ascii_to_keycode_entry_t` is declared
in `hid_device.h`, which is not among the sources; the spec gives an entry as
(shift-required, 8-bit keycode), in the order of the table's initialisers. -/
structure hid_ascii_to_keycode_entry_t where
  shift : Nat
  keycode : Nat
  deriving DecidableEq, Repr

/-- The controller driver, the delay, the descriptor set and the application
callbacks: the functions and objects the file calls but does not define. -/
structure Env (σ : Type) where
  tud_mounted : σ → Bool
  dcd_edpt_busy : σ → Nat → Bool
  dcd_edpt_xfer : σ → Nat → List Nat → Nat → Bool × σ
  /-- the argument is the memory seen through the endpoint descriptor pointer -/
  dcd_edpt_open : σ → (Nat → Nat) → Bool × σ
  timeout_blocking_wait : σ → Nat → σ
  /-- returns the buffer as the transfer leaves it -/
  usbd_control_xfer_st : σ → Nat → List Nat → Nat → List Nat × σ
  dcd_control_status : σ → Nat → σ
  dcd_control_stall : σ → σ
  /-- the pointer `tud_desc_set.hid_report.boot_keyboard` -/
  boot_keyboard : Option (List Nat)
  /-- the pointer `tud_desc_set.hid_report.boot_mouse` -/
  boot_mouse : Option (List Nat)
  tud_hid_keyboard_get_report_cb : Option (get_report_cb_t σ)
  tud_hid_keyboard_set_report_cb : Option (set_report_cb_t σ)
  tud_hid_mouse_get_report_cb : Option (get_report_cb_t σ)
  tud_hid_mouse_set_report_cb : Option (set_report_cb_t σ)
  /-- what a read of `HID_ASCII_TO_KEYCODE[i]` yields for `128 ≤ i`, past the end
  of the table, where the language defines no value -/
  past_HID_ASCII_TO_KEYCODE : Nat → hid_ascii_to_keycode_entry_t

/-- A call that leaves the file, with its arguments (a buffer argument is
recorded with the contents it has when the call is made; a descriptor pointer
is recorded as its offset from `desc_itf`). -/
inductive Call where
  | dcd_edpt_xfer (ep_addr : Nat) (buffer : List Nat) (total_bytes : Nat)
  | dcd_edpt_open (p_desc : Nat)
  | timeout_blocking_wait (ms : Nat)
  | usbd_control_xfer_st (dir : Nat) (buffer : List Nat) (len : Nat)
  | dcd_control_status (dir : Nat)
  | dcd_control_stall
  | get_report_cb (type : Nat) (buffer : List Nat) (reqlen : Nat)
  | set_report_cb (type : Nat) (buffer : List Nat) (bufsize : Nat)
  deriving DecidableEq, Repr

/-- The file-scope objects `_kbd_itf`, `_mse_itf`, the shared control buffer
`_usbd_ctrl_buf`, the state of everything outside, and the calls made so far. -/
structure World (σ : Type) where
  _kbd_itf : hidd_interface_t σ
  _mse_itf : hidd_interface_t σ
  _usbd_ctrl_buf : List Nat
  ext : σ
  calls : List Call

/-- The library function `memcpy(dst, src, n)` on arrays given as byte lists. -/
def memcpy (dst src : List Nat) (n : Nat) : List Nat :=
  src.take n ++ dst.drop n

variable {σ : Type}

/-! ## Calls into the controller driver -/

/-- Call `dcd_edpt_xfer(TUD_OPT_RHPORT, ep, buffer, len)`. -/
def dcd_edpt_xfer (E : Env σ) (ep : Nat) (buffer : List Nat) (len : Nat)
    (w : World σ) : Bool × World σ :=
  ((E.dcd_edpt_xfer w.ext ep buffer len).1,
   { w with ext := (E.dcd_edpt_xfer w.ext ep buffer len).2,
            calls := w.calls ++ [Call.dcd_edpt_xfer ep buffer len] })

/-- Call `timeout_blocking_wait(ms)`. -/
def timeout_blocking_wait (E : Env σ) (ms : Nat) (w : World σ) : World σ :=
  { w with ext := E.timeout_blocking_wait w.ext ms,
           calls := w.calls ++ [Call.timeout_blocking_wait ms] }

/-! ## Keyboard application API -/

/-- Modelled from the spec: the struct `hid_keyboard_report_t` is declared in
`hid_device.h`, which is not among the sources; the spec gives the boot keyboard
report as 1 modifier byte, 1 reserved byte and 6 keycodes (8 bytes). -/
structure hid_keyboard_report_t where
  modifier : Nat
  reserved : Nat
  keycode : Fin 6 → Nat

/-- Modelled from the spec: the object representation of a keyboard report,
modifier first, then the reserved byte, then the six keycodes. -/
def hid_keyboard_report_t.bytes (r : hid_keyboard_report_t) : List Nat :=
  r.modifier :: r.reserved :: List.ofFn r.keycode

/-- Modelled from the spec: `sizeof(hid_keyboard_report_t)`, the 8-byte boot
keyboard report. -/
def sizeof_hid_keyboard_report_t : Nat := 8

/-- Source function `tud_hid_keyboard_busy`. -/
def tud_hid_keyboard_busy (E : Env σ) (w : World σ) : Bool :=
  E.dcd_edpt_busy w.ext w._kbd_itf.ep_in

/-- Source function `tud_hid_keyboard_send_report`; `p_report = none` is the
null pointer. -/
def tud_hid_keyboard_send_report (E : Env σ) (p_report : Option hid_keyboard_report_t)
    (w : World σ) : Bool × World σ :=
  -- VERIFY( tud_mounted() && !tud_hid_keyboard_busy() );
  if !(E.tud_mounted w.ext && !tud_hid_keyboard_busy E w) then (false, w)
  else
    let report_buf :=
      match p_report with
      | some r => memcpy w._kbd_itf.report_buf r.bytes sizeof_hid_keyboard_report_t
      | none => List.replicate REPORT_BUFSIZE 0   -- arrclr_
    let w1 := { w with _kbd_itf := { w._kbd_itf with report_buf := report_buf } }
    dcd_edpt_xfer E w1._kbd_itf.ep_in w1._kbd_itf.report_buf sizeof_hid_keyboard_report_t w1

/-! ## ASCII to keycode -/

/-- Initialisers 0x00 to 0x1F of `HID_ASCII_TO_KEYCODE` as the source writes
them, one a line: the shift flag, and the keycode as the literal 0 (`none`) or
as a `HID_KEY_*` name. -/
def HID_ASCII_TO_KEYCODE_init_00 : List (Nat × Option hid_key) :=
  [
    (0, none),  -- 0x00
    (0, none),  -- 0x01
    (0, none),  -- 0x02
    (0, none),  -- 0x03
    (0, none),  -- 0x04
    (0, none),  -- 0x05
    (0, none),  -- 0x06
    (0, none),  -- 0x07
    (0, some .HID_KEY_BACKSPACE),  -- 0x08
    (0, some .HID_KEY_TAB),  -- 0x09
    (0, some .HID_KEY_RETURN),  -- 0x0A
    (0, none),  -- 0x0B
    (0, none),  -- 0x0C
    (0, some .HID_KEY_RETURN),  -- 0x0D
    (0, none),  -- 0x0E
    (0, none),  -- 0x0F
    (0, none),  -- 0x10
    (0, none),  -- 0x11
    (0, none),  -- 0x12
    (0, none),  -- 0x13
    (0, none),  -- 0x14
    (0, none),  -- 0x15
    (0, none),  -- 0x16
    (0, none),  -- 0x17
    (0, none),  -- 0x18
    (0, none),  -- 0x19
    (0, none),  -- 0x1A
    (0, some .HID_KEY_ESCAPE),  -- 0x1B
    (0, none),  -- 0x1C
    (0, none),  -- 0x1D
    (0, none),  -- 0x1E
    (0, none)  -- 0x1F
  ]

/-- Initialisers 0x20 to 0x3F of `HID_ASCII_TO_KEYCODE` as the source writes
them, one a line: the shift flag, and the keycode as the literal 0 (`none`) or
as a `HID_KEY_*` name. -/
def HID_ASCII_TO_KEYCODE_init_20 : List (Nat × Option hid_key) :=
  [
    (0, some .HID_KEY_SPACE),  -- 0x20
    (1, some .HID_KEY_1),  -- 0x21
    (1, some .HID_KEY_APOSTROPHE),  -- 0x22
    (1, some .HID_KEY_3),  -- 0x23
    (1, some .HID_KEY_4),  -- 0x24
    (1, some .HID_KEY_5),  -- 0x25
    (1, some .HID_KEY_7),  -- 0x26
    (0, some .HID_KEY_APOSTROPHE),  -- 0x27
    (1, some .HID_KEY_9),  -- 0x28
    (1, some .HID_KEY_0),  -- 0x29
    (1, some .HID_KEY_8),  -- 0x2A
    (1, some .HID_KEY_EQUAL),  -- 0x2B
    (0, some .HID_KEY_COMMA),  -- 0x2C
    (0, some .HID_KEY_MINUS),  -- 0x2D
    (0, some .HID_KEY_PERIOD),  -- 0x2E
    (0, some .HID_KEY_SLASH),  -- 0x2F
    (0, some .HID_KEY_0),  -- 0x30
    (0, some .HID_KEY_1),  -- 0x31
    (0, some .HID_KEY_2),  -- 0x32
    (0, some .HID_KEY_3),  -- 0x33
    (0, some .HID_KEY_4),  -- 0x34
    (0, some .HID_KEY_5),  -- 0x35
    (0, some .HID_KEY_6),  -- 0x36
    (0, some .HID_KEY_7),  -- 0x37
    (0, some .HID_KEY_8),  -- 0x38
    (0, some .HID_KEY_9),  -- 0x39
    (1, some .HID_KEY_SEMICOLON),  -- 0x3A
    (0, some .HID_KEY_SEMICOLON),  -- 0x3B
    (1, some .HID_KEY_COMMA),  -- 0x3C
    (0, some .HID_KEY_EQUAL),  -- 0x3D
    (1, some .HID_KEY_PERIOD),  -- 0x3E
    (1, some .HID_KEY_SLASH)  -- 0x3F
  ]

/-- Initialisers 0x40 to 0x5F of `HID_ASCII_TO_KEYCODE` as the source writes
them, one a line: the shift flag, and the keycode as the literal 0 (`none`) or
as a `HID_KEY_*` name. -/
def HID_ASCII_TO_KEYCODE_init_40 : List (Nat × Option hid_key) :=
  [
    (1, some .HID_KEY_2),  -- 0x40
    (1, some .HID_KEY_A),  -- 0x41
    (1, some .HID_KEY_B),  -- 0x42
    (1, some .HID_KEY_C),  -- 0x43
    (1, some .HID_KEY_D),  -- 0x44
    (1, some .HID_KEY_E),  -- 0x45
    (1, some .HID_KEY_F),  -- 0x46
    (1, some .HID_KEY_G),  -- 0x47
    (1, some .HID_KEY_H),  -- 0x48
    (1, some .HID_KEY_I),  -- 0x49
    (1, some .HID_KEY_J),  -- 0x4A
    (1, some .HID_KEY_K),  -- 0x4B
    (1, some .HID_KEY_L),  -- 0x4C
    (1, some .HID_KEY_M),  -- 0x4D
    (1, some .HID_KEY_N),  -- 0x4E
    (1, some .HID_KEY_O),  -- 0x4F
    (1, some .HID_KEY_P),  -- 0x50
    (1, some .HID_KEY_Q),  -- 0x51
    (1, some .HID_KEY_R),  -- 0x52
    (1, some .HID_KEY_S),  -- 0x53
    (1, some .HID_KEY_T),  -- 0x54
    (1, some .HID_KEY_U),  -- 0x55
    (1, some .HID_KEY_V),  -- 0x56
    (1, some .HID_KEY_W),  -- 0x57
    (1, some .HID_KEY_X),  -- 0x58
    (1, some .HID_KEY_Y),  -- 0x59
    (1, some .HID_KEY_Z),  -- 0x5A
    (0, some .HID_KEY_BRACKET_LEFT),  -- 0x5B
    (0, some .HID_KEY_BACKSLASH),  -- 0x5C
    (0, some .HID_KEY_BRACKET_RIGHT),  -- 0x5D
    (1, some .HID_KEY_6),  -- 0x5E
    (1, some .HID_KEY_MINUS)  -- 0x5F
  ]

/-- Initialisers 0x60 to 0x7F of `HID_ASCII_TO_KEYCODE` as the source writes
them, one a line: the shift flag, and the keycode as the literal 0 (`none`) or
as a `HID_KEY_*` name. -/
def HID_ASCII_TO_KEYCODE_init_60 : List (Nat × Option hid_key) :=
  [
    (0, some .HID_KEY_GRAVE),  -- 0x60
    (0, some .HID_KEY_A),  -- 0x61
    (0, some .HID_KEY_B),  -- 0x62
    (0, some .HID_KEY_C),  -- 0x63
    (0, some .HID_KEY_D),  -- 0x64
    (0, some .HID_KEY_E),  -- 0x65
    (0, some .HID_KEY_F),  -- 0x66
    (0, some .HID_KEY_G),  -- 0x67
    (0, some .HID_KEY_H),  -- 0x68
    (0, some .HID_KEY_I),  -- 0x69
    (0, some .HID_KEY_J),  -- 0x6A
    (0, some .HID_KEY_K),  -- 0x6B
    (0, some .HID_KEY_L),  -- 0x6C
    (0, some .HID_KEY_M),  -- 0x6D
    (0, some .HID_KEY_N),  -- 0x6E
    (0, some .HID_KEY_O),  -- 0x6F
    (0, some .HID_KEY_P),  -- 0x70
    (0, some .HID_KEY_Q),  -- 0x71
    (0, some .HID_KEY_R),  -- 0x72
    (0, some .HID_KEY_S),  -- 0x73
    (0, some .HID_KEY_T),  -- 0x74
    (0, some .HID_KEY_U),  -- 0x75
    (0, some .HID_KEY_V),  -- 0x76
    (0, some .HID_KEY_W),  -- 0x77
    (0, some .HID_KEY_X),  -- 0x78
    (0, some .HID_KEY_Y),  -- 0x79
    (0, some .HID_KEY_Z),  -- 0x7A
    (1, some .HID_KEY_BRACKET_LEFT),  -- 0x7B
    (1, some .HID_KEY_BACKSLASH),  -- 0x7C
    (1, some .HID_KEY_BRACKET_RIGHT),  -- 0x7D
    (1, some .HID_KEY_GRAVE),  -- 0x7E
    (0, some .HID_KEY_DELETE)  -- 0x7F
  ]

/-- The initialisers of `HID_ASCII_TO_KEYCODE[128]`, in the four blocks of the
source. -/
def HID_ASCII_TO_KEYCODE_init : List (Nat × Option hid_key) :=
  HID_ASCII_TO_KEYCODE_init_00 ++ HID_ASCII_TO_KEYCODE_init_20 ++
    HID_ASCII_TO_KEYCODE_init_40 ++ HID_ASCII_TO_KEYCODE_init_60

/-- The value of an initialiser, the `HID_KEY_*` names taking the values the
headers give them. -/
def hid_ascii_to_keycode_entry_t.of_init (H : Headers) :
    Nat × Option hid_key → hid_ascii_to_keycode_entry_t
  | (shift, none) => ⟨shift, 0⟩
  | (shift, some k) => ⟨shift, H.HID_KEY k⟩

/-- The table `HID_ASCII_TO_KEYCODE[128]`. -/
def HID_ASCII_TO_KEYCODE (H : Headers) : List hid_ascii_to_keycode_entry_t :=
  HID_ASCII_TO_KEYCODE_init.map (hid_ascii_to_keycode_entry_t.of_init H)

/-- The read `HID_ASCII_TO_KEYCODE[i]`. -/
def HID_ASCII_TO_KEYCODE_read (H : Headers) (E : Env σ) (i : Nat) :
    hid_ascii_to_keycode_entry_t :=
  match (HID_ASCII_TO_KEYCODE H)[i]? with
  | some e => e
  | none => E.past_HID_ASCII_TO_KEYCODE i

/-- Source function `tud_hid_keyboard_send_char`; a `char` is given by its byte
value, so that `(uint8_t)ch` is `ch % 256`. -/
def tud_hid_keyboard_send_char (H : Headers) (E : Env σ) (ch : Nat)
    (w : World σ) : Bool × World σ :=
  let report : hid_keyboard_report_t :=
    { modifier :=
        if (HID_ASCII_TO_KEYCODE_read H E (ch % 256)).shift ≠ 0
        then H.KEYBOARD_MODIFIER_LEFTSHIFT else 0
      reserved := 0
      keycode := fun i =>
        if i = 0 then (HID_ASCII_TO_KEYCODE_read H E (ch % 256)).keycode else 0 }
  tud_hid_keyboard_send_report E (some report) w

/-- Source function `tud_hid_keyboard_send_string`.  The argument `str` lists
the bytes the pointer refers to; the byte after the last one listed is the
terminating NUL.  The source function has no `return` statement, so only the
effect is given. -/
def tud_hid_keyboard_send_string (H : Headers) (E : Env σ) :
    List Nat → Nat → World σ → World σ
  | [], _, w => w
  | ch :: str, interval_ms, w =>
    if ch = 0 then w
    else
      let lookahead := str.headD 0
      let w1 := (tud_hid_keyboard_send_char H E ch w).2
      -- Blocking delay
      let w2 := timeout_blocking_wait E interval_ms w1
      let w3 :=
        if lookahead = ch ∨ lookahead = 0 then
          timeout_blocking_wait E interval_ms (tud_hid_keyboard_send_report E none w2).2
        else w2
      tud_hid_keyboard_send_string H E str interval_ms w3

/-! ## Mouse application API -/

/-- Source function `tud_hid_mouse_busy`. -/
def tud_hid_mouse_busy (E : Env σ) (w : World σ) : Bool :=
  E.dcd_edpt_busy w.ext w._mse_itf.ep_in

/-- Modelled from the spec: `tud_hid_mouse_is_busy`, which `tud_hid_mouse_send`
calls, is not defined in the sources; the spec gives `is_busy()` of a role as
the controller driver's busy query on the role's endpoint. -/
def tud_hid_mouse_is_busy (E : Env σ) (w : World σ) : Bool :=
  tud_hid_mouse_busy E w

/-- Source function `tud_hid_mouse_send`.  A mouse report is given by its object
representation, `p_report = none` is the null pointer.  The result is `none`
where the source copies from the null pointer, which has no defined behaviour. -/
def tud_hid_mouse_send (H : Headers) (E : Env σ) (p_report : Option (List Nat))
    (w : World σ) : Option (Bool × World σ) :=
  -- VERIFY( tud_mounted() && !tud_hid_mouse_is_busy() );
  if !(E.tud_mounted w.ext && !tud_hid_mouse_is_busy E w) then some (false, w)
  else
    match p_report with
    | none => none
    | some r =>
      let w1 := { w with _mse_itf := { w._mse_itf with
                    report_buf := memcpy w._mse_itf.report_buf r H.sizeof_hid_mouse_report_t } }
      some (dcd_edpt_xfer E w1._mse_itf.ep_in w1._mse_itf.report_buf
              H.sizeof_hid_mouse_report_t w1)

/-! ## Interface lookup -/

/-- The object a `hidd_interface_t*` can point to: `&_kbd_itf` or `&_mse_itf`. -/
inductive Role where
  | kbd
  | mse
  deriving DecidableEq, Repr

/-- The other of the two interface objects. -/
def Role.other : Role → Role
  | .kbd => .mse
  | .mse => .kbd

/-- Read through a `hidd_interface_t*`. -/
def World.itf (w : World σ) : Role → hidd_interface_t σ
  | .kbd => w._kbd_itf
  | .mse => w._mse_itf

/-- Write through a `hidd_interface_t*`. -/
def World.set_itf (w : World σ) (p : Role) (r : hidd_interface_t σ) : World σ :=
  match p with
  | .kbd => { w with _kbd_itf := r }
  | .mse => { w with _mse_itf := r }

/-- Source function `get_interface_by_edpt`; `none` is `NULL`. -/
def get_interface_by_edpt (ep_addr : Nat) (w : World σ) : Option Role :=
  if ep_addr = w._kbd_itf.ep_in then some .kbd
  else if ep_addr = w._mse_itf.ep_in then some .mse
  else none

/-- Source function `get_interface_by_number`; `none` is `NULL`. -/
def get_interface_by_number (itf_num : Nat) (w : World σ) : Option Role :=
  if itf_num = w._kbd_itf.itf_num then some .kbd
  else if itf_num = w._mse_itf.itf_num then some .mse
  else none

/-! ## USBD-class API -/

/-- A `hidd_interface_t` after `varclr_`: every byte of the object is zero. -/
def hidd_interface_t.zero : hidd_interface_t σ where
  itf_num := 0
  ep_in := 0
  idle_rate := 0
  report_id := 0
  report_len := 0
  report_desc := none
  get_report_cb := none
  set_report_cb := none
  report_buf := List.replicate REPORT_BUFSIZE 0

/-- Source function `hidd_reset`. -/
def hidd_reset (w : World σ) : World σ :=
  let w1 := { w with _mse_itf := hidd_interface_t.zero }
  { w1 with _kbd_itf := hidd_interface_t.zero }

/-- Source function `hidd_init`. -/
def hidd_init (w : World σ) : World σ :=
  hidd_reset w

/-- Read of a `uint8_t` at offset `i` of descriptor memory. -/
def rd8 (mem : Nat → Nat) (i : Nat) : Nat :=
  mem i % 256

/-- Read of a little-endian `uint16_t` at offset `i` of descriptor memory. -/
def rd16 (mem : Nat → Nat) (i : Nat) : Nat :=
  rd8 mem i + 256 * rd8 mem (i + 1)

/-- Call `dcd_edpt_open(rhport, desc_edpt)`, the descriptor being at offset
`p_desc` of the memory `desc_itf` points to. -/
def dcd_edpt_open (E : Env σ) (desc_itf : Nat → Nat) (p_desc : Nat)
    (w : World σ) : Bool × World σ :=
  ((E.dcd_edpt_open w.ext (fun i => desc_itf (p_desc + i))).1,
   { w with ext := (E.dcd_edpt_open w.ext (fun i => desc_itf (p_desc + i))).2,
            calls := w.calls ++ [Call.dcd_edpt_open p_desc] })

/-- The pointer `desc_hid` of `hidd_open`, as an offset from `desc_itf`: the
result of `p_desc += p_desc[DESC_OFFSET_LEN]` from the interface descriptor. -/
def hidd_open_desc_hid (H : Headers) (desc_itf : Nat → Nat) : Nat :=
  0 + rd8 desc_itf (0 + H.DESC_OFFSET_LEN)

/-- The pointer `desc_edpt` of `hidd_open`, as an offset from `desc_itf`: the
result of `p_desc += p_desc[DESC_OFFSET_LEN]` from the HID descriptor. -/
def hidd_open_desc_edpt (H : Headers) (desc_itf : Nat → Nat) : Nat :=
  hidd_open_desc_hid H desc_itf
    + rd8 desc_itf (hidd_open_desc_hid H desc_itf + H.DESC_OFFSET_LEN)

/-- Source function `hidd_open`.  The argument `desc_itf` is the memory the
interface descriptor pointer refers to, `p_length` is the value of `*p_length`
when the function is entered; the result is the returned error code, the value
of `*p_length` when the function returns, and the state. -/
def hidd_open (H : Headers) (E : Env σ) (desc_itf : Nat → Nat) (p_length : Nat)
    (w : World σ) : tusb_error_t × Nat × World σ :=
  --------------- HID descriptor ---------------
  let desc_hid := hidd_open_desc_hid H desc_itf
  if H.HID_DESC_TYPE_HID ≠ rd8 desc_itf (desc_hid + H.hid_bDescriptorType) then
    (.TUSB_ERROR_HIDD_DESCRIPTOR_INTERFACE, p_length, w)
  else
  --------------- Endpoint Descriptor ---------------
  let desc_edpt := hidd_open_desc_edpt H desc_itf
  if H.TUSB_DESC_ENDPOINT ≠ rd8 desc_itf (desc_edpt + H.edpt_bDescriptorType) then
    (.TUSB_ERROR_HIDD_DESCRIPTOR_INTERFACE, p_length, w)
  else
  let bInterfaceProtocol := rd8 desc_itf H.itf_bInterfaceProtocol
  if rd8 desc_itf H.itf_bInterfaceSubClass = H.HID_SUBCLASS_BOOT then
    if bInterfaceProtocol ≠ H.HID_PROTOCOL_KEYBOARD ∧ bInterfaceProtocol ≠ H.HID_PROTOCOL_MOUSE then
      -- unknown, unsupported protocol
      (.TUSB_ERROR_HIDD_DESCRIPTOR_INTERFACE, p_length, w)
    else
      -- hidd_interface_t * p_hid = NULL;
      let s0 : Option Role × World σ := (none, w)
      let s1 : Option Role × World σ :=
        if bInterfaceProtocol = H.HID_PROTOCOL_KEYBOARD then
          (some .kbd, { s0.2 with _kbd_itf := { s0.2._kbd_itf with
              report_desc := E.boot_keyboard
              get_report_cb := E.tud_hid_keyboard_get_report_cb
              set_report_cb := E.tud_hid_keyboard_set_report_cb } })
        else s0
      let s2 : Option Role × World σ :=
        if bInterfaceProtocol = H.HID_PROTOCOL_MOUSE then
          (some .mse, { s1.2 with _mse_itf := { s1.2._mse_itf with
              report_desc := E.boot_mouse
              get_report_cb := E.tud_hid_mouse_get_report_cb
              set_report_cb := E.tud_hid_mouse_set_report_cb } })
        else s1
      match s2.1 with
      | none => (.TUSB_ERROR_HIDD_DESCRIPTOR_INTERFACE, p_length, s2.2)   -- TU_ASSERT(p_hid, ..)
      | some p_hid =>
        -- VERIFY(p_hid->report_desc, TUSB_ERROR_DESCRIPTOR_CORRUPTED);
        if (s2.2.itf p_hid).report_desc.isNone then
          (.TUSB_ERROR_DESCRIPTOR_CORRUPTED, p_length, s2.2)
        else
          let o := dcd_edpt_open E desc_itf desc_edpt s2.2
          if !o.1 then (.TUSB_ERROR_DCD_FAILED, p_length, o.2)
          else
            let w4 := o.2.set_itf p_hid { o.2.itf p_hid with
              report_len := rd16 desc_itf (desc_hid + H.hid_wReportLength)
              itf_num := rd8 desc_itf H.itf_bInterfaceNumber
              ep_in := rd8 desc_itf (desc_edpt + H.edpt_bEndpointAddress)
              report_id := 0 }
            (.TUSB_ERROR_NONE,
             (H.sizeof_tusb_desc_interface_t + H.sizeof_tusb_hid_descriptor_hid_t
                + H.sizeof_tusb_desc_endpoint_t) % 65536,
             w4)
  else
    -- TODO HID generic
    (.TUSB_ERROR_HIDD_DESCRIPTOR_INTERFACE, 0, w)

/-! ## Control requests -/

/-- The bit-field view `bmRequestType_bit` of a control request. -/
structure bmRequestType_bit_t where
  recipient : Nat
  type : Nat
  direction : Nat

/-- The struct `tusb_control_request_t`, with the fields the file reads. -/
structure tusb_control_request_t where
  bmRequestType_bit : bmRequestType_bit_t
  bRequest : Nat
  wValue : Nat
  wIndex : Nat
  wLength : Nat

/-- The helper `u16_high_u8`: the high byte of a 16-bit value. -/
def u16_high_u8 (u16 : Nat) : Nat :=
  (u16 / 256) % 256

/-- The helper `u16_low_u8`: the low byte of a 16-bit value. -/
def u16_low_u8 (u16 : Nat) : Nat :=
  u16 % 256

/-- Modelled from the spec: `usbd_control_xfer_st` is a macro of `usbd_pvt.h`,
which is not among the sources; the spec gives it as the collaborator call
`control_transfer(direction, buffer, length)`.  The result is the buffer as the
transfer leaves it, and the state. -/
def usbd_control_xfer_st (E : Env σ) (dir : Nat) (buffer : List Nat) (len : Nat)
    (w : World σ) : List Nat × World σ :=
  ((E.usbd_control_xfer_st w.ext dir buffer len).1,
   { w with ext := (E.usbd_control_xfer_st w.ext dir buffer len).2,
            calls := w.calls ++ [Call.usbd_control_xfer_st dir buffer len] })

/-- Call `dcd_control_status(rhport, dir)`. -/
def dcd_control_status (E : Env σ) (dir : Nat) (w : World σ) : World σ :=
  { w with ext := E.dcd_control_status w.ext dir,
           calls := w.calls ++ [Call.dcd_control_status dir] }

/-- Call `dcd_control_stall(rhport)`. -/
def dcd_control_stall (E : Env σ) (w : World σ) : World σ :=
  { w with ext := E.dcd_control_stall w.ext,
           calls := w.calls ++ [Call.dcd_control_stall] }

/-- Source function `hidd_control_request_st`.  Modelled from the spec where the
subtask macros of the absent `osal` headers are used: a failed `STASK_ASSERT`
ends the function with `TUSB_ERROR_FAILED`, and `OSAL_SUBTASK_END` ends it with
`TUSB_ERROR_NONE`.  The result is `none` where the source copies from a null
`report_desc`, which has no defined behaviour. -/
def hidd_control_request_st (H : Headers) (E : Env σ) (p_request : tusb_control_request_t)
    (w : World σ) : Option (tusb_error_t × World σ) :=
  match get_interface_by_number (p_request.wIndex % 256) w with
  | none => some (.TUSB_ERROR_FAILED, w)   -- TU_ASSERT(p_hid, TUSB_ERROR_FAILED)
  | some p_hid =>
    let dir := p_request.bmRequestType_bit.direction
    --------------- STD Request ---------------
    if p_request.bmRequestType_bit.type = H.TUSB_REQ_TYPE_STANDARD then
      let desc_type := u16_high_u8 p_request.wValue
      if p_request.bRequest = H.TUSB_REQ_GET_DESCRIPTOR ∧ desc_type = H.HID_DESC_TYPE_REPORT then
        if ¬ ((w.itf p_hid).report_len ≤ H.CFG_TUD_CTRL_BUFSIZE) then
          some (.TUSB_ERROR_FAILED, w)
        else
          match (w.itf p_hid).report_desc with
          | none => none
          | some report_desc =>
            -- use device control buffer
            let w1 := { w with _usbd_ctrl_buf :=
                          memcpy w._usbd_ctrl_buf report_desc (w.itf p_hid).report_len }
            let x := usbd_control_xfer_st E dir w1._usbd_ctrl_buf (w.itf p_hid).report_len w1
            some (.TUSB_ERROR_NONE, { x.2 with _usbd_ctrl_buf := x.1 })
      else
        some (.TUSB_ERROR_NONE, dcd_control_stall E w)
    --------------- Class Specific Request ---------------
    else if p_request.bmRequestType_bit.type = H.TUSB_REQ_TYPE_CLASS then
      if H.HID_REQ_CONTROL_GET_REPORT = p_request.bRequest then
        -- wValue = Report Type | Report ID
        let report_type := u16_high_u8 p_request.wValue
        let c : Nat × World σ :=
          match (w.itf p_hid).get_report_cb with
          | some cb =>
            let r := cb w.ext report_type (w.itf p_hid).report_buf p_request.wLength
            (r.1.1 % 65536,
             { w.set_itf p_hid { w.itf p_hid with report_buf := r.1.2 } with
                 ext := r.2
                 calls := w.calls ++
                   [Call.get_report_cb report_type (w.itf p_hid).report_buf p_request.wLength] })
          | none =>
            -- re-use report_buf -> report has no change
            (p_request.wLength, w)
        let xferlen := c.1
        let w1 := c.2
        if ¬ (xferlen > 0) then some (.TUSB_ERROR_FAILED, w1)
        else
          let x := usbd_control_xfer_st E dir (w1.itf p_hid).report_buf xferlen w1
          some (.TUSB_ERROR_NONE,
                x.2.set_itf p_hid { x.2.itf p_hid with report_buf := x.1 })
      else if H.HID_REQ_CONTROL_SET_REPORT = p_request.bRequest then
        -- wValue = Report Type | Report ID
        let x := usbd_control_xfer_st E dir w._usbd_ctrl_buf p_request.wLength w
        let w1 := { x.2 with _usbd_ctrl_buf := x.1 }
        match (w1.itf p_hid).set_report_cb with
        | some cb =>
          some (.TUSB_ERROR_NONE,
                { w1 with
                    ext := cb w1.ext (u16_high_u8 p_request.wValue) w1._usbd_ctrl_buf
                             p_request.wLength
                    calls := w1.calls ++
                      [Call.set_report_cb (u16_high_u8 p_request.wValue) w1._usbd_ctrl_buf
                         p_request.wLength] })
        | none => some (.TUSB_ERROR_NONE, w1)
      else if H.HID_REQ_CONTROL_SET_IDLE = p_request.bRequest then
        let w1 := w.set_itf p_hid { w.itf p_hid with
                    idle_rate := u16_high_u8 p_request.wValue }
        some (.TUSB_ERROR_NONE, dcd_control_status E dir w1)
      else if H.HID_REQ_CONTROL_GET_IDLE = p_request.bRequest then
        let w1 := { w with _usbd_ctrl_buf := w._usbd_ctrl_buf.set 0 (w.itf p_hid).idle_rate }
        let x := usbd_control_xfer_st E dir w1._usbd_ctrl_buf 1 w1
        some (.TUSB_ERROR_NONE, { x.2 with _usbd_ctrl_buf := x.1 })
      else if H.HID_REQ_CONTROL_GET_PROTOCOL = p_request.bRequest then
        -- 1 - CFG_TUD_HID_BOOT_PROTOCOL: 0 is Boot, 1 is Report protocol
        let w1 := { w with _usbd_ctrl_buf := w._usbd_ctrl_buf.set 0 (1 - 1) }
        let x := usbd_control_xfer_st E dir w1._usbd_ctrl_buf 1 w1
        some (.TUSB_ERROR_NONE, { x.2 with _usbd_ctrl_buf := x.1 })
      else
        -- HID_REQ_CONTROL_SET_PROTOCOL:
        some (.TUSB_ERROR_NONE, dcd_control_stall E w)
    else
      some (.TUSB_ERROR_NONE, dcd_control_stall E w)

/-- Source function `hidd_xfer_cb`: nothing to do. -/
def hidd_xfer_cb (_edpt_addr : Nat) (_event : Nat) (_xferred_bytes : Nat) : tusb_error_t :=
  .TUSB_ERROR_NONE

/-! ## The string driver as the spec words it -/

/-- One thing the string driver does: a key-down send for a character, a wait,
or the send of the empty (key-up) report. -/
inductive KbdStep where
  | key_down (ch : Nat)
  | wait (ms : Nat)
  | key_up
  deriving DecidableEq, Repr

/-- What a step does: `key_down ch` is the call `tud_hid_keyboard_send_char(ch)`,
`wait ms` the call `timeout_blocking_wait(ms)`, and `key_up` the call
`tud_hid_keyboard_send_report(NULL)`. -/
def KbdStep.run (H : Headers) (E : Env σ) : KbdStep → World σ → World σ
  | .key_down ch, w => (tud_hid_keyboard_send_char H E ch w).2
  | .wait ms, w => timeout_blocking_wait E ms w
  | .key_up, w => (tud_hid_keyboard_send_report E none w).2

/-- Steps done one after the other. -/
def run_steps (H : Headers) (E : Env σ) (l : List KbdStep) (w : World σ) : World σ :=
  l.foldl (fun w a => a.run H E w) w

/-- The steps the spec gives for the character `s[i]` of the string `s`: one
key-down send, one wait of `d`, and then, if and only if `s[i+1]` equals `s[i]`
or `s[i]` is the last character, one key-up send followed by one wait of `d`. -/
def send_string_steps_at (s : List Nat) (d : Nat) (i : Nat) : List KbdStep :=
  [.key_down (s.getD i 0), .wait d] ++
    (if s.getD (i + 1) 0 = s.getD i 0 ∨ i + 1 = s.length then [.key_up, .wait d] else [])

/-- The steps the spec gives for the string `s`: those of each character, in
order, and nothing else. -/
def send_string_steps (s : List Nat) (d : Nat) : List KbdStep :=
  (List.range s.length).flatMap (send_string_steps_at s d)

/-! ## Concrete collaborators, for evaluating the definitions -/

/-- A collaborator without state: the device is mounted or not, the endpoints
are busy or not, and transfers and endpoint opening succeed or not, as given;
no callback is registered and both boot report descriptors are present. -/
def const_env (mounted busy xfer_ok open_ok : Bool) : Env Unit where
  tud_mounted _ := mounted
  dcd_edpt_busy _ _ := busy
  dcd_edpt_xfer _ _ _ _ := (xfer_ok, ())
  dcd_edpt_open _ _ := (open_ok, ())
  timeout_blocking_wait _ _ := ()
  usbd_control_xfer_st _ _ buffer _ := (buffer, ())
  dcd_control_status _ _ := ()
  dcd_control_stall _ := ()
  boot_keyboard := some [0x05, 0x01, 0x09, 0x06]
  boot_mouse := some [0x05, 0x01, 0x09, 0x02]
  tud_hid_keyboard_get_report_cb := none
  tud_hid_keyboard_set_report_cb := none
  tud_hid_mouse_get_report_cb := none
  tud_hid_mouse_set_report_cb := none
  past_HID_ASCII_TO_KEYCODE _ := ⟨0, 0⟩

/-- The state at start-up: both records zero, an 8-byte control buffer of
zeros, no call made yet. -/
def world0 : World Unit where
  _kbd_itf := hidd_interface_t.zero
  _mse_itf := hidd_interface_t.zero
  _usbd_ctrl_buf := List.replicate 8 0
  ext := ()
  calls := []

/-! ## The US keyboard layout, as the spec refers to it -/

/-- The keys of the standard US layout that type a printable ASCII character:
the key, the character it types alone, and the character it types with shift
(letters: lower case alone, upper case with shift). -/
def us_layout : List (hid_key × Nat × Nat) :=
  [
    (.HID_KEY_A, 0x61, 0x41),
    (.HID_KEY_B, 0x62, 0x42),
    (.HID_KEY_C, 0x63, 0x43),
    (.HID_KEY_D, 0x64, 0x44),
    (.HID_KEY_E, 0x65, 0x45),
    (.HID_KEY_F, 0x66, 0x46),
    (.HID_KEY_G, 0x67, 0x47),
    (.HID_KEY_H, 0x68, 0x48),
    (.HID_KEY_I, 0x69, 0x49),
    (.HID_KEY_J, 0x6A, 0x4A),
    (.HID_KEY_K, 0x6B, 0x4B),
    (.HID_KEY_L, 0x6C, 0x4C),
    (.HID_KEY_M, 0x6D, 0x4D),
    (.HID_KEY_N, 0x6E, 0x4E),
    (.HID_KEY_O, 0x6F, 0x4F),
    (.HID_KEY_P, 0x70, 0x50),
    (.HID_KEY_Q, 0x71, 0x51),
    (.HID_KEY_R, 0x72, 0x52),
    (.HID_KEY_S, 0x73, 0x53),
    (.HID_KEY_T, 0x74, 0x54),
    (.HID_KEY_U, 0x75, 0x55),
    (.HID_KEY_V, 0x76, 0x56),
    (.HID_KEY_W, 0x77, 0x57),
    (.HID_KEY_X, 0x78, 0x58),
    (.HID_KEY_Y, 0x79, 0x59),
    (.HID_KEY_Z, 0x7A, 0x5A),
    (.HID_KEY_1, 0x31, 0x21),  -- digit one, exclamation mark
    (.HID_KEY_2, 0x32, 0x40),  -- two, at sign
    (.HID_KEY_3, 0x33, 0x23),  -- three, number sign
    (.HID_KEY_4, 0x34, 0x24),  -- four, dollar
    (.HID_KEY_5, 0x35, 0x25),  -- five, percent
    (.HID_KEY_6, 0x36, 0x5E),  -- six, circumflex
    (.HID_KEY_7, 0x37, 0x26),  -- seven, ampersand
    (.HID_KEY_8, 0x38, 0x2A),  -- eight, asterisk
    (.HID_KEY_9, 0x39, 0x28),  -- nine, left parenthesis
    (.HID_KEY_0, 0x30, 0x29),  -- zero, right parenthesis
    (.HID_KEY_SPACE, 0x20, 0x20),  -- space bar
    (.HID_KEY_MINUS, 0x2D, 0x5F),  -- minus, underscore
    (.HID_KEY_EQUAL, 0x3D, 0x2B),  -- equals, plus
    (.HID_KEY_BRACKET_LEFT, 0x5B, 0x7B),  -- left bracket, left brace
    (.HID_KEY_BRACKET_RIGHT, 0x5D, 0x7D),  -- right bracket, right brace
    (.HID_KEY_BACKSLASH, 0x5C, 0x7C),  -- backslash, vertical bar
    (.HID_KEY_SEMICOLON, 0x3B, 0x3A),  -- semicolon, colon
    (.HID_KEY_APOSTROPHE, 0x27, 0x22),  -- apostrophe, double quote
    (.HID_KEY_GRAVE, 0x60, 0x7E),  -- grave accent, tilde
    (.HID_KEY_COMMA, 0x2C, 0x3C),  -- comma, less-than
    (.HID_KEY_PERIOD, 0x2E, 0x3E),  -- period, greater-than
    (.HID_KEY_SLASH, 0x2F, 0x3F)  -- slash, question mark
  ]

/-- How a character is typed on the US layout: the shift flag (0 when a key
types it alone, 1 when a key types it with shift) and the key; `none` when no
key of the layout types it. -/
def us_layout_lookup (c : Nat) : Option (Nat × hid_key) :=
  match us_layout.find? (fun k => k.2.1 = c) with
  | some k => some (0, k.1)
  | none =>
    match us_layout.find? (fun k => k.2.2 = c) with
    | some k => some (1, k.1)
    | none => none

/-! ## Roles, header well-formedness and concrete descriptor chains -/

/-- The `bInterfaceProtocol` value that selects a record in `hidd_open`. -/
def Role.protocol (H : Headers) : Role → Nat
  | .kbd => H.HID_PROTOCOL_KEYBOARD
  | .mse => H.HID_PROTOCOL_MOUSE

/-- The boot report descriptor that `hidd_open` binds to a record. -/
def Role.boot_report_desc (E : Env σ) : Role → Option (List Nat)
  | .kbd => E.boot_keyboard
  | .mse => E.boot_mouse

/-- The request types and the HID request codes that the control request
handler tells apart have pairwise different values. -/
def Headers.requests_distinct (H : Headers) : Prop :=
  H.TUSB_REQ_TYPE_STANDARD ≠ H.TUSB_REQ_TYPE_CLASS
  ∧ [H.HID_REQ_CONTROL_GET_REPORT, H.HID_REQ_CONTROL_SET_REPORT, H.HID_REQ_CONTROL_SET_IDLE,
     H.HID_REQ_CONTROL_GET_IDLE, H.HID_REQ_CONTROL_GET_PROTOCOL].Nodup

/-- Descriptor memory holding the given bytes, followed by zeros. -/
def desc_mem (bytes : List Nat) : Nat → Nat :=
  fun i => bytes.getD i 0

/-- A boot keyboard chain: interface 1 (class HID, subclass boot, protocol
keyboard), HID descriptor with `wReportLength` 63, interrupt IN endpoint 0x81. -/
def chain_boot_keyboard : Nat → Nat :=
  desc_mem [9, 0x04, 1, 0, 1, 0x03, 1, 1, 0,
            9, 0x21, 0x11, 0x01, 0, 1, 0x22, 63, 0,
            7, 0x05, 0x81, 0x03, 8, 0, 10]

/-- A boot mouse chain: interface 2 (subclass boot, protocol mouse), HID
descriptor with `wReportLength` 50, interrupt IN endpoint 0x82. -/
def chain_boot_mouse : Nat → Nat :=
  desc_mem [9, 0x04, 2, 0, 1, 0x03, 1, 2, 0,
            9, 0x21, 0x11, 0x01, 0, 1, 0x22, 50, 0,
            7, 0x05, 0x82, 0x03, 8, 0, 10]

/-- A boot keyboard interface followed by an endpoint descriptor where the HID
descriptor should be. -/
def chain_no_hid : Nat → Nat :=
  desc_mem [9, 0x04, 1, 0, 1, 0x03, 1, 1, 0,
            7, 0x05, 0x81, 0x03, 8, 0, 10]

/-- A boot interface with protocol byte 3, neither keyboard nor mouse. -/
def chain_boot_protocol_3 : Nat → Nat :=
  desc_mem [9, 0x04, 1, 0, 1, 0x03, 1, 3, 0,
            9, 0x21, 0x11, 0x01, 0, 1, 0x22, 63, 0,
            7, 0x05, 0x81, 0x03, 8, 0, 10]

/-- A generic HID chain (subclass 0) with HID and endpoint descriptors. -/
def chain_generic : Nat → Nat :=
  desc_mem [9, 0x04, 1, 0, 1, 0x03, 0, 0, 0,
            9, 0x21, 0x11, 0x01, 0, 1, 0x22, 63, 0,
            7, 0x05, 0x81, 0x03, 8, 0, 10]

/-- A generic HID interface (subclass 0) followed by an endpoint descriptor
where the HID descriptor should be. -/
def chain_generic_no_hid : Nat → Nat :=
  desc_mem [9, 0x04, 1, 0, 1, 0x03, 0, 0, 0,
            7, 0x05, 0x81, 0x03, 8, 0, 10]

/-- The state after both boot chains are bound on a driver that opens every
endpoint: keyboard on interface 1, mouse on interface 2. -/
def world_bound : World Unit :=
  (hidd_open usb_headers (const_env true false true true) chain_boot_mouse 0
    (hidd_open usb_headers (const_env true false true true) chain_boot_keyboard 0
      world0).2.2).2.2

/-- A class SET_IDLE request to interface `itf` with `wValue = v`. -/
def req_set_idle (itf v : Nat) : tusb_control_request_t where
  bmRequestType_bit := { recipient := 1, type := 1, direction := 0 }
  bRequest := 0x0A
  wValue := v
  wIndex := itf
  wLength := 0

/-- A class GET_IDLE request to interface `itf`. -/
def req_get_idle (itf : Nat) : tusb_control_request_t where
  bmRequestType_bit := { recipient := 1, type := 1, direction := 1 }
  bRequest := 0x02
  wValue := 0
  wIndex := itf
  wLength := 1

/-- The bound state with non-zero idle rates: 7 for the keyboard and 0x12 for
the mouse. -/
def world_idle : World Unit :=
  { world_bound with
      _kbd_itf := { world_bound._kbd_itf with idle_rate := 7 }
      _mse_itf := { world_bound._mse_itf with idle_rate := 0x12 } }

/-! ## Concrete requests, chains and bind sequences for the control-request claims -/

/-- A boot keyboard chain on interface 1 whose HID descriptor gives
`wReportLength` 4, the length of the keyboard blob of `const_env`. -/
def chain_boot_keyboard_len4 : Nat → Nat :=
  desc_mem [9, 0x04, 1, 0, 1, 0x03, 1, 1, 0,
            9, 0x21, 0x11, 0x01, 0, 1, 0x22, 4, 0,
            7, 0x05, 0x81, 0x03, 8, 0, 10]

/-- A boot mouse chain on interface 2 whose HID descriptor gives
`wReportLength` 300 (bytes 44 and 1), more than the control buffer of
`usb_headers` holds. -/
def chain_boot_mouse_len300 : Nat → Nat :=
  desc_mem [9, 0x04, 2, 0, 1, 0x03, 1, 2, 0,
            9, 0x21, 0x11, 0x01, 0, 1, 0x22, 44, 1,
            7, 0x05, 0x82, 0x03, 8, 0, 10]

/-- A boot mouse chain on interface 2 that names endpoint 0x81, the endpoint of
`chain_boot_keyboard`. -/
def chain_boot_mouse_ep81 : Nat → Nat :=
  desc_mem [9, 0x04, 2, 0, 1, 0x03, 1, 2, 0,
            9, 0x21, 0x11, 0x01, 0, 1, 0x22, 50, 0,
            7, 0x05, 0x81, 0x03, 8, 0, 10]

/-- The state after the keyboard chain with report length 4 and the mouse chain
with report length 300 are bound. -/
def world_bound_len : World Unit :=
  (hidd_open usb_headers (const_env true false true true) chain_boot_mouse_len300 0
    (hidd_open usb_headers (const_env true false true true) chain_boot_keyboard_len4 0
      world0).2.2).2.2

/-- A standard GET_DESCRIPTOR request for the report descriptor (type 0x22) of
interface `itf`. -/
def req_get_descriptor_report (itf : Nat) : tusb_control_request_t where
  bmRequestType_bit := { recipient := 1, type := 0, direction := 1 }
  bRequest := 6
  wValue := 0x2200
  wIndex := itf
  wLength := 64

/-- A class GET_REPORT request (input report) to interface `itf` that asks for
`len` bytes. -/
def req_get_report (itf len : Nat) : tusb_control_request_t where
  bmRequestType_bit := { recipient := 1, type := 1, direction := 1 }
  bRequest := 0x01
  wValue := 0x0100
  wIndex := itf
  wLength := len

/-- A class SET_PROTOCOL request (code 0x0B of HID 1.11) to interface `itf`. -/
def req_set_protocol (itf : Nat) : tusb_control_request_t where
  bmRequestType_bit := { recipient := 1, type := 1, direction := 0 }
  bRequest := 0x0B
  wValue := 0
  wIndex := itf
  wLength := 0

/-- A get-report callback that writes the report 1, 2, 3 at the start of the
buffer and returns the length 3. -/
def demo_get_report_cb : get_report_cb_t Unit :=
  fun _ _ buffer _ => ((3, memcpy buffer [1, 2, 3] 3), ())

/-- The collaborator `const_env true false true true` with `demo_get_report_cb`
registered for the keyboard. -/
def cb_env : Env Unit :=
  { const_env true false true true with
      tud_hid_keyboard_get_report_cb := some demo_get_report_cb }

/-- The state after the boot keyboard chain is bound with `cb_env`. -/
def world_bound_cb : World Unit :=
  (hidd_open usb_headers cb_env chain_boot_keyboard 0 world0).2.2

/-- A sequence of `hidd_open` calls, one for each chain of the list (with the
value of the length variable at the call), whatever each call returns. -/
def hidd_open_seq (H : Headers) (E : Env σ) :
    List ((Nat → Nat) × Nat) → World σ → World σ
  | [], w => w
  | (desc_itf, p_length) :: rest, w =>
    hidd_open_seq H E rest (hidd_open H E desc_itf p_length w).2.2

/-- The `bEndpointAddress` that `hidd_open` reads from a chain. -/
def chain_ep (H : Headers) (desc_itf : Nat → Nat) : Nat :=
  rd8 desc_itf (hidd_open_desc_edpt H desc_itf + H.edpt_bEndpointAddress)

/-- The `bInterfaceProtocol` that `hidd_open` reads from a chain. -/
def chain_protocol (H : Headers) (desc_itf : Nat → Nat) : Nat :=
  rd8 desc_itf H.itf_bInterfaceProtocol

/-! ## What reaches the driver during the string driver's steps -/

/-- The steps of a string that starts with `c`: those of `c`, then those of the
rest of the string. -/
theorem send_string_steps_cons (c : Nat) (s : List Nat) (d : Nat) :
    send_string_steps (c :: s) d
      = send_string_steps_at (c :: s) d 0 ++ send_string_steps s d := by
  unfold send_string_steps
  rw [List.length_cons, List.range_succ_eq_map, List.flatMap_cons]
  congr 1
  rw [List.flatMap_def, List.flatMap_def, List.map_map]
  congr 1
  apply List.map_congr_left
  intro i _
  simp [send_string_steps_at]

/-- Running steps one list after the other. -/
theorem run_steps_append (H : Headers) (E : Env σ) (l₁ l₂ : List KbdStep) (w : World σ) :
    run_steps H E (l₁ ++ l₂) w = run_steps H E l₂ (run_steps H E l₁ w) := by
  simp [run_steps, List.foldl_append]

/-- The string loop does the steps of the spec, for a string without NUL. -/
theorem send_string_eq_run_steps (H : Headers) (E : Env σ) (d : Nat) :
    ∀ (s : List Nat) (w : World σ), (∀ c ∈ s, c ≠ 0) →
      tud_hid_keyboard_send_string H E s d w = run_steps H E (send_string_steps s d) w := by
  intro s
  induction s with
  | nil => intro w _; rfl
  | cons c s ih =>
    intro w hs
    have hc : c ≠ 0 := hs c (List.mem_cons_self _ _)
    have hs1 : ∀ x ∈ s, x ≠ 0 := fun x hx => hs x (List.mem_cons_of_mem _ hx)
    rw [send_string_steps_cons, run_steps_append, ← ih _ hs1]
    cases s with
    | nil =>
      simp [tud_hid_keyboard_send_string, send_string_steps_at, run_steps, KbdStep.run, hc]
    | cons c1 s1 =>
      have hc1 : c1 ≠ 0 := hs1 c1 (List.mem_cons_self _ _)
      by_cases h : c1 = c
      · subst h
        simp [tud_hid_keyboard_send_string, send_string_steps_at, run_steps, KbdStep.run, hc]
      · simp [tud_hid_keyboard_send_string, send_string_steps_at, run_steps, KbdStep.run,
          hc, hc1, h]

/-- Claim C2: when the device is not mounted or the keyboard endpoint is busy,
`tud_hid_keyboard_send_report` returns failure whatever the report argument
(none included) and leaves the whole state as it was: no endpoint transfer is
started and no field of any record changes; likewise `tud_hid_mouse_send` when
the device is not mounted or the mouse endpoint is busy. -/
theorem C2_send_fails_unmounted_or_busy (H : Headers) (E : Env σ) (w : World σ)
    (kbd_report : Option hid_keyboard_report_t) (mse_report : Option (List Nat)) :
    ((E.tud_mounted w.ext = false ∨ E.dcd_edpt_busy w.ext w._kbd_itf.ep_in = true) →
        tud_hid_keyboard_send_report E kbd_report w = (false, w))
    ∧ ((E.tud_mounted w.ext = false ∨ E.dcd_edpt_busy w.ext w._mse_itf.ep_in = true) →
        tud_hid_mouse_send H E mse_report w = some (false, w)) := by
  constructor
  · intro h
    rcases h with h | h <;>
      simp [tud_hid_keyboard_send_report, tud_hid_keyboard_busy, h]
  · intro h
    rcases h with h | h <;>
      simp [tud_hid_mouse_send, tud_hid_mouse_is_busy, tud_hid_mouse_busy, h]

/-- Witness of C2: an unmounted device for the keyboard (no report given), a busy
endpoint for the mouse. -/
theorem C2_send_fails_unmounted_or_busy_witness :
    tud_hid_keyboard_send_report (const_env false false true true) none world0
        = (false, world0)
    ∧ tud_hid_mouse_send usb_headers (const_env true true true true) (some [1, 2, 3, 4]) world0
        = some (false, world0) :=
  ⟨(C2_send_fails_unmounted_or_busy usb_headers (const_env false false true true) world0
      none none).1 (Or.inl rfl),
   (C2_send_fails_unmounted_or_busy usb_headers (const_env true true true true) world0
      none (some [1, 2, 3, 4])).2 (Or.inr rfl)⟩

/-- Counterexample to C3 as stated: the device is mounted and the keyboard
endpoint is not busy, but the controller driver refuses the transfer, and
`tud_hid_keyboard_send_report` returns failure. -/
theorem C3_counterexample :
    (const_env true false false true).tud_mounted world0.ext = true
    ∧ tud_hid_keyboard_busy (const_env true false false true) world0 = false
    ∧ (tud_hid_keyboard_send_report (const_env true false false true) none world0).1 = false := by
  refine ⟨rfl, rfl, rfl⟩

/-- Claim C3, amended: when the device is mounted and the keyboard endpoint is
not busy, `tud_hid_keyboard_send_report` makes exactly one call of
`dcd_edpt_xfer`, on the record's `ep_in`, of the fixed keyboard report length,
whose payload (the first 8 bytes of `report_buf`) is the given report, or all
zero when no report is given; it returns what that call returns, so it succeeds
exactly when the driver accepts the transfer; no other field changes. -/
theorem C3_send_report_starts_one_transfer (E : Env σ) (w : World σ)
    (p_report : Option hid_keyboard_report_t)
    (hm : E.tud_mounted w.ext = true)
    (hb : E.dcd_edpt_busy w.ext w._kbd_itf.ep_in = false) :
    ∃ buf : List Nat,
      buf.take sizeof_hid_keyboard_report_t
          = (match p_report with
             | some r => r.bytes
             | none => List.replicate sizeof_hid_keyboard_report_t 0)
      ∧ tud_hid_keyboard_send_report E p_report w
          = ((E.dcd_edpt_xfer w.ext w._kbd_itf.ep_in buf sizeof_hid_keyboard_report_t).1,
             { w with
                 _kbd_itf := { w._kbd_itf with report_buf := buf }
                 ext := (E.dcd_edpt_xfer w.ext w._kbd_itf.ep_in buf
                           sizeof_hid_keyboard_report_t).2
                 calls := w.calls ++
                   [Call.dcd_edpt_xfer w._kbd_itf.ep_in buf sizeof_hid_keyboard_report_t] }) := by
  cases p_report with
  | none =>
    refine ⟨List.replicate REPORT_BUFSIZE 0, ?_, ?_⟩
    · simp [REPORT_BUFSIZE, sizeof_hid_keyboard_report_t, List.take_replicate]
    · simp [tud_hid_keyboard_send_report, tud_hid_keyboard_busy, hm, hb, dcd_edpt_xfer]
  | some r =>
    refine ⟨memcpy w._kbd_itf.report_buf r.bytes sizeof_hid_keyboard_report_t, ?_, ?_⟩
    · simp [memcpy, hid_keyboard_report_t.bytes, sizeof_hid_keyboard_report_t,
        List.take_append_eq_append_take]
    · simp [tud_hid_keyboard_send_report, tud_hid_keyboard_busy, hm, hb, dcd_edpt_xfer]

/-- Witness of C3 (amended) at a mounted, idle device and the empty report. -/
theorem C3_send_report_starts_one_transfer_witness :
    ∃ buf : List Nat,
      buf.take sizeof_hid_keyboard_report_t = List.replicate sizeof_hid_keyboard_report_t 0
      ∧ tud_hid_keyboard_send_report (const_env true false true true) none world0
          = (true, { world0 with
                 _kbd_itf := { world0._kbd_itf with report_buf := buf }
                 calls := [Call.dcd_edpt_xfer 0 buf sizeof_hid_keyboard_report_t] }) :=
  C3_send_report_starts_one_transfer (const_env true false true true) world0 none rfl rfl

/-- The initialisers of the printable range are those of the US layout. -/
theorem init_printable :
    ∀ c < 0x7F, 0x20 ≤ c →
      (us_layout_lookup c).map (fun x => (x.1, some x.2)) = HID_ASCII_TO_KEYCODE_init[c]?
      ∧ (us_layout_lookup c).isSome = true := by
  decide!

/-- An upper-case letter and its lower-case letter have the same keycode
initialiser, with shift 1 and 0. -/
theorem init_letters :
    ∀ c < 0x5B, 0x41 ≤ c →
      ∃ k ∈ HID_ASCII_TO_KEYCODE_init[c + 0x20]?, k.1 = 0
        ∧ HID_ASCII_TO_KEYCODE_init[c]? = some (1, k.2) := by
  decide!

/-- Claim C4: for every character `c` of the printable range 0x20 to 0x7E, the
entry `HID_ASCII_TO_KEYCODE[c]` has a keycode different from 0 (the `HID_KEY_*`
values being non-zero) and is what the US layout gives for `c`: the keycode of
the key that types `c` and shift 1 exactly when that key needs shift.  So A is
shift 1 with the letter-A keycode, 1 is shift 0 with the digit-1 keycode, the
exclamation mark is shift 1 with the digit-1 keycode, and every upper-case
letter has the keycode of its lower-case letter, with shift 1 and 0. -/
theorem C4_ascii_table_printable (H : Headers) (hk : ∀ k, H.HID_KEY k ≠ 0) (c : Nat)
    (hlo : 0x20 ≤ c) (hhi : c ≤ 0x7E) :
    (∃ shift key, us_layout_lookup c = some (shift, key)
        ∧ (HID_ASCII_TO_KEYCODE H)[c]? = some ⟨shift, H.HID_KEY key⟩
        ∧ H.HID_KEY key ≠ 0)
    ∧ (HID_ASCII_TO_KEYCODE H)[0x41]? = some ⟨1, H.HID_KEY .HID_KEY_A⟩
    ∧ (HID_ASCII_TO_KEYCODE H)[0x31]? = some ⟨0, H.HID_KEY .HID_KEY_1⟩
    ∧ (HID_ASCII_TO_KEYCODE H)[0x21]? = some ⟨1, H.HID_KEY .HID_KEY_1⟩
    ∧ (0x41 ≤ c → c ≤ 0x5A → ∃ keycode,
        (HID_ASCII_TO_KEYCODE H)[c]? = some ⟨1, keycode⟩
        ∧ (HID_ASCII_TO_KEYCODE H)[c + 0x20]? = some ⟨0, keycode⟩) := by
  refine ⟨?_, rfl, rfl, rfl, ?_⟩
  · obtain ⟨h1, h2⟩ := init_printable c (by omega) hlo
    obtain ⟨⟨shift, key⟩, hl⟩ := Option.isSome_iff_exists.mp h2
    refine ⟨shift, key, hl, ?_, hk key⟩
    rw [hl] at h1
    simp only [Option.map_some'] at h1
    simp only [HID_ASCII_TO_KEYCODE, List.getElem?_map, ← h1, Option.map_some',
      hid_ascii_to_keycode_entry_t.of_init]
  · intro h1 h2
    obtain ⟨k, hk1, hk2, hk3⟩ := init_letters c (by omega) h1
    obtain ⟨shift, key⟩ := k
    simp only at hk2 hk3
    subst hk2
    refine ⟨(hid_ascii_to_keycode_entry_t.of_init H (0, key)).keycode, ?_, ?_⟩
    · simp only [HID_ASCII_TO_KEYCODE, List.getElem?_map, hk3, Option.map_some']
      cases key <;> rfl
    · have hk1' : HID_ASCII_TO_KEYCODE_init[c + 0x20]? = some (0, key) := hk1
      simp only [HID_ASCII_TO_KEYCODE, List.getElem?_map, hk1', Option.map_some']
      cases key <;> rfl

/-- Witness of C4 at the letter Q (0x51), with the key codes of the HID usage
tables: Q is shift 1 with keycode 0x14, and q is shift 0 with the same keycode. -/
theorem C4_ascii_table_printable_witness :
    (∀ k, usb_headers.HID_KEY k ≠ 0)
    ∧ (∃ shift key, us_layout_lookup 0x51 = some (shift, key)
        ∧ (HID_ASCII_TO_KEYCODE usb_headers)[0x51]? = some ⟨shift, usb_headers.HID_KEY key⟩
        ∧ usb_headers.HID_KEY key ≠ 0)
    ∧ (HID_ASCII_TO_KEYCODE usb_headers)[0x51]? = some ⟨1, 0x14⟩
    ∧ (HID_ASCII_TO_KEYCODE usb_headers)[0x71]? = some ⟨0, 0x14⟩ := by
  have hk : ∀ k, usb_headers.HID_KEY k ≠ 0 := by intro k; cases k <;> decide
  exact ⟨hk, (C4_ascii_table_printable usb_headers hk 0x51 (by decide) (by decide)).1,
    by decide!, by decide!⟩

/-- Writing a record through a pointer and reading it back. -/
theorem itf_set_itf_same (w : World σ) (p : Role) (r : hidd_interface_t σ) :
    (w.set_itf p r).itf p = r := by
  cases p <;> rfl

/-- Writing a record through a pointer leaves the other record as it was. -/
theorem itf_set_itf_other (w : World σ) (p : Role) (r : hidd_interface_t σ) :
    (w.set_itf p r).itf p.other = w.itf p.other := by
  cases p <;> rfl

/-- Claim C5: on a chain interface + HID + endpoint (both type checks pass) with
subclass boot and the protocol of a role (keyboard, resp. mouse), when the
role's report descriptor is set and `dcd_edpt_open` succeeds, `hidd_open`
returns `TUSB_ERROR_NONE`, reports as consumed length the sum of the three
descriptor sizes, opens exactly that endpoint, and leaves the role's record with
`report_len = wReportLength`, `itf_num = bInterfaceNumber`,
`ep_in = bEndpointAddress` and `report_id = 0`; the other role's record is
unchanged. -/
theorem C5_open_boot_binds_record (H : Headers) (E : Env σ) (desc_itf : Nat → Nat)
    (p_length : Nat) (w : World σ) (role : Role)
    (hkm : H.HID_PROTOCOL_KEYBOARD ≠ H.HID_PROTOCOL_MOUSE)
    (hsize : H.sizeof_tusb_desc_interface_t + H.sizeof_tusb_hid_descriptor_hid_t
              + H.sizeof_tusb_desc_endpoint_t < 65536)
    (hhid : rd8 desc_itf (hidd_open_desc_hid H desc_itf + H.hid_bDescriptorType)
              = H.HID_DESC_TYPE_HID)
    (hedpt : rd8 desc_itf (hidd_open_desc_edpt H desc_itf + H.edpt_bDescriptorType)
              = H.TUSB_DESC_ENDPOINT)
    (hboot : rd8 desc_itf H.itf_bInterfaceSubClass = H.HID_SUBCLASS_BOOT)
    (hproto : rd8 desc_itf H.itf_bInterfaceProtocol = role.protocol H)
    (hdesc : (role.boot_report_desc E).isSome = true)
    (hopen : (E.dcd_edpt_open w.ext
                (fun i => desc_itf (hidd_open_desc_edpt H desc_itf + i))).1 = true) :
    (hidd_open H E desc_itf p_length w).1 = .TUSB_ERROR_NONE
    ∧ (hidd_open H E desc_itf p_length w).2.1
        = H.sizeof_tusb_desc_interface_t + H.sizeof_tusb_hid_descriptor_hid_t
            + H.sizeof_tusb_desc_endpoint_t
    ∧ (hidd_open H E desc_itf p_length w).2.2.calls
        = w.calls ++ [Call.dcd_edpt_open (hidd_open_desc_edpt H desc_itf)]
    ∧ ((hidd_open H E desc_itf p_length w).2.2.itf role).report_len
        = rd16 desc_itf (hidd_open_desc_hid H desc_itf + H.hid_wReportLength)
    ∧ ((hidd_open H E desc_itf p_length w).2.2.itf role).itf_num
        = rd8 desc_itf H.itf_bInterfaceNumber
    ∧ ((hidd_open H E desc_itf p_length w).2.2.itf role).ep_in
        = rd8 desc_itf (hidd_open_desc_edpt H desc_itf + H.edpt_bEndpointAddress)
    ∧ ((hidd_open H E desc_itf p_length w).2.2.itf role).report_id = 0
    ∧ (hidd_open H E desc_itf p_length w).2.2.itf role.other = w.itf role.other := by
  have hmk : H.HID_PROTOCOL_MOUSE ≠ H.HID_PROTOCOL_KEYBOARD := fun h => hkm h.symm
  cases role with
  | kbd =>
    simp only [Role.protocol] at hproto
    simp only [Role.boot_report_desc] at hdesc
    obtain ⟨d, hd⟩ := Option.isSome_iff_exists.mp hdesc
    simp [hidd_open, hhid, hedpt, hboot, hproto, hkm, hd, hopen, dcd_edpt_open,
      World.itf, World.set_itf, Role.other, Nat.mod_eq_of_lt hsize]
  | mse =>
    simp only [Role.protocol] at hproto
    simp only [Role.boot_report_desc] at hdesc
    obtain ⟨d, hd⟩ := Option.isSome_iff_exists.mp hdesc
    simp [hidd_open, hhid, hedpt, hboot, hproto, hmk, hd, hopen, dcd_edpt_open,
      World.itf, World.set_itf, Role.other, Nat.mod_eq_of_lt hsize]

/-- Witness of C5: the boot keyboard chain on the start-up state, with the
header values of the standards and a driver that opens the endpoint. -/
theorem C5_open_boot_binds_record_witness :
    (hidd_open usb_headers (const_env true false true true) chain_boot_keyboard 0 world0).1
        = .TUSB_ERROR_NONE
    ∧ (hidd_open usb_headers (const_env true false true true) chain_boot_keyboard 0 world0).2.1
        = 25
    ∧ ((hidd_open usb_headers (const_env true false true true) chain_boot_keyboard 0
          world0).2.2.itf .kbd).report_len = 63
    ∧ ((hidd_open usb_headers (const_env true false true true) chain_boot_keyboard 0
          world0).2.2.itf .kbd).itf_num = 1
    ∧ ((hidd_open usb_headers (const_env true false true true) chain_boot_keyboard 0
          world0).2.2.itf .kbd).ep_in = 0x81
    ∧ ((hidd_open usb_headers (const_env true false true true) chain_boot_keyboard 0
          world0).2.2.itf .kbd).report_id = 0
    ∧ (hidd_open usb_headers (const_env true false true true) chain_boot_keyboard 0
          world0).2.2.itf .mse = world0.itf .mse := by
  have h := C5_open_boot_binds_record usb_headers (const_env true false true true)
    chain_boot_keyboard 0 world0 .kbd (by decide) (by decide) (by decide) (by decide)
    (by decide) (by decide) rfl rfl
  exact ⟨h.1, h.2.1.trans (by decide), h.2.2.2.1.trans (by decide),
    h.2.2.2.2.1.trans (by decide), h.2.2.2.2.2.1.trans (by decide), h.2.2.2.2.2.2.1,
    h.2.2.2.2.2.2.2⟩

/-- Claim C6: when the sub-descriptor that follows the interface descriptor does
not have descriptor type HID, `hidd_open` returns the descriptor error
`TUSB_ERROR_HIDD_DESCRIPTOR_INTERFACE` and consumes no bytes: the length
variable, which the caller hands over cleared, still reads 0, so the consumed
length reported is 0; no endpoint is opened and nothing in the state changes.
Whatever the length variable held, the function returns the error before
writing to it. -/
theorem C6_open_rejects_missing_hid (H : Headers) (E : Env σ) (desc_itf : Nat → Nat)
    (w : World σ)
    (hhid : rd8 desc_itf (hidd_open_desc_hid H desc_itf + H.hid_bDescriptorType)
              ≠ H.HID_DESC_TYPE_HID) :
    hidd_open H E desc_itf 0 w = (.TUSB_ERROR_HIDD_DESCRIPTOR_INTERFACE, 0, w)
    ∧ (hidd_open H E desc_itf 0 w).2.2.calls = w.calls
    ∧ ∀ p_length : Nat,
        hidd_open H E desc_itf p_length w
          = (.TUSB_ERROR_HIDD_DESCRIPTOR_INTERFACE, p_length, w) := by
  have h : ∀ p_length : Nat, hidd_open H E desc_itf p_length w
      = (.TUSB_ERROR_HIDD_DESCRIPTOR_INTERFACE, p_length, w) := by
    intro p_length
    have hne : H.HID_DESC_TYPE_HID
        ≠ rd8 desc_itf (hidd_open_desc_hid H desc_itf + H.hid_bDescriptorType) :=
      fun e => hhid e.symm
    simp [hidd_open, hne]
  exact ⟨h 0, by rw [h 0], h⟩

/-- Witness of C6: the chain whose second sub-descriptor is an endpoint
descriptor, on the start-up state. -/
theorem C6_open_rejects_missing_hid_witness :
    hidd_open usb_headers (const_env true false true true) chain_no_hid 0 world0
        = (.TUSB_ERROR_HIDD_DESCRIPTOR_INTERFACE, 0, world0)
    ∧ (hidd_open usb_headers (const_env true false true true) chain_no_hid 0
        world0).2.2.calls = [] :=
  ⟨(C6_open_rejects_missing_hid usb_headers (const_env true false true true) chain_no_hid
      world0 (by decide)).1,
   (C6_open_rejects_missing_hid usb_headers (const_env true false true true) chain_no_hid
      world0 (by decide)).2.1⟩

/-- Claim C7: on a chain whose interface has subclass boot and a protocol byte
that is neither keyboard nor mouse, `hidd_open` returns the descriptor error
`TUSB_ERROR_HIDD_DESCRIPTOR_INTERFACE` and leaves the state as it was: no
endpoint is opened (no call is made) and both records are unchanged. -/
theorem C7_open_rejects_unknown_protocol (H : Headers) (E : Env σ) (desc_itf : Nat → Nat)
    (p_length : Nat) (w : World σ)
    (hboot : rd8 desc_itf H.itf_bInterfaceSubClass = H.HID_SUBCLASS_BOOT)
    (hk : rd8 desc_itf H.itf_bInterfaceProtocol ≠ H.HID_PROTOCOL_KEYBOARD)
    (hm : rd8 desc_itf H.itf_bInterfaceProtocol ≠ H.HID_PROTOCOL_MOUSE) :
    (hidd_open H E desc_itf p_length w).1 = .TUSB_ERROR_HIDD_DESCRIPTOR_INTERFACE
    ∧ (hidd_open H E desc_itf p_length w).2.2 = w
    ∧ (hidd_open H E desc_itf p_length w).2.2.calls = w.calls
    ∧ (hidd_open H E desc_itf p_length w).2.2._kbd_itf = w._kbd_itf
    ∧ (hidd_open H E desc_itf p_length w).2.2._mse_itf = w._mse_itf := by
  have h : (hidd_open H E desc_itf p_length w).1 = .TUSB_ERROR_HIDD_DESCRIPTOR_INTERFACE
      ∧ (hidd_open H E desc_itf p_length w).2.2 = w := by
    by_cases hhid : H.HID_DESC_TYPE_HID
        = rd8 desc_itf (hidd_open_desc_hid H desc_itf + H.hid_bDescriptorType)
    · by_cases hedpt : H.TUSB_DESC_ENDPOINT
          = rd8 desc_itf (hidd_open_desc_edpt H desc_itf + H.edpt_bDescriptorType)
      · simp [hidd_open, ← hhid, ← hedpt, hboot, hk, hm]
      · simp [hidd_open, ← hhid, hedpt]
    · simp [hidd_open, hhid]
  refine ⟨h.1, h.2, ?_, ?_, ?_⟩ <;> rw [h.2]

/-- Witness of C7: a boot interface with protocol byte 3. -/
theorem C7_open_rejects_unknown_protocol_witness :
    (hidd_open usb_headers (const_env true false true true) chain_boot_protocol_3 0 world0).1
        = .TUSB_ERROR_HIDD_DESCRIPTOR_INTERFACE
    ∧ (hidd_open usb_headers (const_env true false true true) chain_boot_protocol_3 0
        world0).2.2 = world0 :=
  ⟨(C7_open_rejects_unknown_protocol usb_headers (const_env true false true true)
      chain_boot_protocol_3 0 world0 (by decide) (by decide) (by decide)).1,
   (C7_open_rejects_unknown_protocol usb_headers (const_env true false true true)
      chain_boot_protocol_3 0 world0 (by decide) (by decide) (by decide)).2.1⟩

/-- Claim C8: on a chain whose interface subclass is not boot (generic HID),
`hidd_open` returns the descriptor error `TUSB_ERROR_HIDD_DESCRIPTOR_INTERFACE`
with a consumed length of zero and the state unchanged: on a chain interface +
HID + endpoint the generic branch writes the length 0 whatever the length
variable held, and on any other chain the function returns before writing to the
length variable, which the caller hands over cleared and so still reads 0. -/
theorem C8_open_rejects_generic (H : Headers) (E : Env σ) (desc_itf : Nat → Nat)
    (w : World σ)
    (hgen : rd8 desc_itf H.itf_bInterfaceSubClass ≠ H.HID_SUBCLASS_BOOT) :
    hidd_open H E desc_itf 0 w = (.TUSB_ERROR_HIDD_DESCRIPTOR_INTERFACE, 0, w)
    ∧ (∀ p_length : Nat,
        (hidd_open H E desc_itf p_length w).1 = .TUSB_ERROR_HIDD_DESCRIPTOR_INTERFACE
        ∧ (hidd_open H E desc_itf p_length w).2.2 = w)
    ∧ (rd8 desc_itf (hidd_open_desc_hid H desc_itf + H.hid_bDescriptorType)
          = H.HID_DESC_TYPE_HID →
        rd8 desc_itf (hidd_open_desc_edpt H desc_itf + H.edpt_bDescriptorType)
          = H.TUSB_DESC_ENDPOINT →
        ∀ p_length : Nat,
          hidd_open H E desc_itf p_length w
            = (.TUSB_ERROR_HIDD_DESCRIPTOR_INTERFACE, 0, w)) := by
  by_cases hhid : H.HID_DESC_TYPE_HID
      = rd8 desc_itf (hidd_open_desc_hid H desc_itf + H.hid_bDescriptorType)
  · by_cases hedpt : H.TUSB_DESC_ENDPOINT
        = rd8 desc_itf (hidd_open_desc_edpt H desc_itf + H.edpt_bDescriptorType)
    · simp [hidd_open, ← hhid, ← hedpt, hgen]
    · have hedpt1 : ¬ rd8 desc_itf (hidd_open_desc_edpt H desc_itf + H.edpt_bDescriptorType)
          = H.TUSB_DESC_ENDPOINT := fun e => hedpt e.symm
      simp [hidd_open, ← hhid, hedpt, hedpt1]
  · have hhid1 : ¬ rd8 desc_itf (hidd_open_desc_hid H desc_itf + H.hid_bDescriptorType)
        = H.HID_DESC_TYPE_HID := fun e => hhid e.symm
    simp [hidd_open, hhid, hhid1]

/-- Witness of C8: the generic chain with HID and endpoint descriptors reports
length 0 although the length variable held 7, and the generic interface without
HID descriptor reports the cleared length 0. -/
theorem C8_open_rejects_generic_witness :
    hidd_open usb_headers (const_env true false true true) chain_generic 7 world0
        = (.TUSB_ERROR_HIDD_DESCRIPTOR_INTERFACE, 0, world0)
    ∧ hidd_open usb_headers (const_env true false true true) chain_generic_no_hid 0 world0
        = (.TUSB_ERROR_HIDD_DESCRIPTOR_INTERFACE, 0, world0) :=
  ⟨(C8_open_rejects_generic usb_headers (const_env true false true true) chain_generic
      world0 (by decide)).2.2 (by decide) (by decide) 7,
   (C8_open_rejects_generic usb_headers (const_env true false true true) chain_generic_no_hid
      world0 (by decide)).1⟩

/-- What the handler does with a class SET_IDLE request to a found interface. -/
theorem set_idle_step (H : Headers) (E : Env σ) (w : World σ) (p_hid : Role)
    (req : tusb_control_request_t) (hd : H.requests_distinct)
    (hitf : get_interface_by_number (req.wIndex % 256) w = some p_hid)
    (htype : req.bmRequestType_bit.type = H.TUSB_REQ_TYPE_CLASS)
    (hreq : req.bRequest = H.HID_REQ_CONTROL_SET_IDLE) :
    hidd_control_request_st H E req w
      = some (.TUSB_ERROR_NONE,
          dcd_control_status E req.bmRequestType_bit.direction
            (w.set_itf p_hid { w.itf p_hid with idle_rate := u16_high_u8 req.wValue })) := by
  obtain ⟨hsc, hnd⟩ := hd
  simp only [List.nodup_cons, List.mem_cons, List.mem_singleton, not_or, List.not_mem_nil,
    not_false_eq_true, List.nodup_nil, and_true] at hnd
  obtain ⟨⟨h12, h13, h14, h15⟩, ⟨h23, h24, h25⟩, ⟨h34, h35⟩, h45⟩ := hnd
  have hcs : H.TUSB_REQ_TYPE_CLASS ≠ H.TUSB_REQ_TYPE_STANDARD := fun e => hsc e.symm
  simp [hidd_control_request_st, hitf, htype, hreq, hcs, h13, h23]

/-- What the handler does with a class GET_IDLE request to a found interface. -/
theorem get_idle_step (H : Headers) (E : Env σ) (w : World σ) (p_hid : Role)
    (req : tusb_control_request_t) (hd : H.requests_distinct)
    (hitf : get_interface_by_number (req.wIndex % 256) w = some p_hid)
    (htype : req.bmRequestType_bit.type = H.TUSB_REQ_TYPE_CLASS)
    (hreq : req.bRequest = H.HID_REQ_CONTROL_GET_IDLE) :
    hidd_control_request_st H E req w
      = some (.TUSB_ERROR_NONE,
          { w with
              _usbd_ctrl_buf :=
                (E.usbd_control_xfer_st w.ext req.bmRequestType_bit.direction
                  (w._usbd_ctrl_buf.set 0 (w.itf p_hid).idle_rate) 1).1
              ext :=
                (E.usbd_control_xfer_st w.ext req.bmRequestType_bit.direction
                  (w._usbd_ctrl_buf.set 0 (w.itf p_hid).idle_rate) 1).2
              calls := w.calls ++
                [Call.usbd_control_xfer_st req.bmRequestType_bit.direction
                  (w._usbd_ctrl_buf.set 0 (w.itf p_hid).idle_rate) 1] }) := by
  obtain ⟨hsc, hnd⟩ := hd
  simp only [List.nodup_cons, List.mem_cons, List.mem_singleton, not_or, List.not_mem_nil,
    not_false_eq_true, List.nodup_nil, and_true] at hnd
  obtain ⟨⟨h12, h13, h14, h15⟩, ⟨h23, h24, h25⟩, ⟨h34, h35⟩, h45⟩ := hnd
  have hcs : H.TUSB_REQ_TYPE_CLASS ≠ H.TUSB_REQ_TYPE_STANDARD := fun e => hsc e.symm
  simp [hidd_control_request_st, hitf, htype, hreq, hcs, h14, h24, h34, usbd_control_xfer_st]

/-- The first byte of a non-empty buffer after `buffer[0] = x`. -/
theorem take_one_set_zero (buf : List Nat) (x : Nat) (h : 0 < buf.length) :
    (buf.set 0 x).take 1 = [x] := by
  cases buf with
  | nil => simp at h
  | cons a rest => simp

/-- Claim C9: for every interface found by its number and every request value
`v`, a class SET_IDLE request with `wValue = v` answers with one status
handshake and no data stage, and a class GET_IDLE request to the same interface
after it starts exactly one control transfer of one byte, which is the high
byte of `v`. -/
theorem C9_set_idle_get_idle (H : Headers) (E : Env σ) (w : World σ) (p_hid : Role)
    (set_req get_req : tusb_control_request_t)
    (hd : H.requests_distinct)
    (hbuf : 0 < w._usbd_ctrl_buf.length)
    (hitf : get_interface_by_number (set_req.wIndex % 256) w = some p_hid)
    (hsame : get_req.wIndex % 256 = set_req.wIndex % 256)
    (hset_type : set_req.bmRequestType_bit.type = H.TUSB_REQ_TYPE_CLASS)
    (hset : set_req.bRequest = H.HID_REQ_CONTROL_SET_IDLE)
    (hget_type : get_req.bmRequestType_bit.type = H.TUSB_REQ_TYPE_CLASS)
    (hget : get_req.bRequest = H.HID_REQ_CONTROL_GET_IDLE) :
    ∃ (w1 w2 : World σ) (buf : List Nat),
      hidd_control_request_st H E set_req w = some (.TUSB_ERROR_NONE, w1)
      ∧ w1.calls = w.calls ++ [Call.dcd_control_status set_req.bmRequestType_bit.direction]
      ∧ hidd_control_request_st H E get_req w1 = some (.TUSB_ERROR_NONE, w2)
      ∧ w2.calls = w1.calls
          ++ [Call.usbd_control_xfer_st get_req.bmRequestType_bit.direction buf 1]
      ∧ buf.take 1 = [u16_high_u8 set_req.wValue]
      ∧ (set_req.wValue < 65536 → buf.take 1 = [set_req.wValue / 256]) := by
  have hhigh : set_req.wValue < 65536 → u16_high_u8 set_req.wValue = set_req.wValue / 256 := by
    intro hv
    unfold u16_high_u8
    exact Nat.mod_eq_of_lt (by omega)
  have h1 := set_idle_step H E w p_hid set_req hd hitf hset_type hset
  have hitf1 : get_interface_by_number (get_req.wIndex % 256)
      (dcd_control_status E set_req.bmRequestType_bit.direction
        (w.set_itf p_hid { w.itf p_hid with idle_rate := u16_high_u8 set_req.wValue }))
      = some p_hid := by
    rw [hsame, ← hitf]
    cases p_hid <;> rfl
  have h2 := get_idle_step H E _ p_hid get_req hd hitf1 hget_type hget
  have hidle : ((dcd_control_status E set_req.bmRequestType_bit.direction
        (w.set_itf p_hid { w.itf p_hid with idle_rate := u16_high_u8 set_req.wValue })).itf
          p_hid).idle_rate = u16_high_u8 set_req.wValue := by
    cases p_hid <;> rfl
  have hlen : 0 < (dcd_control_status E set_req.bmRequestType_bit.direction
        (w.set_itf p_hid { w.itf p_hid with idle_rate := u16_high_u8 set_req.wValue
          }))._usbd_ctrl_buf.length := by
    cases p_hid <;> exact hbuf
  have htake := take_one_set_zero _ (u16_high_u8 set_req.wValue) hlen
  rw [hidle] at h2
  refine ⟨_, _, _, h1, ?_, h2, rfl, htake, ?_⟩
  · cases p_hid <;> rfl
  · intro hv
    rw [htake, hhigh hv]

/-- Witness of C9: SET_IDLE with value 0x1234 and then GET_IDLE, both to the
mouse interface (number 2) of the bound state; the byte transferred is 0x12. -/
theorem C9_set_idle_get_idle_witness :
    ∃ (w1 w2 : World Unit) (buf : List Nat),
      hidd_control_request_st usb_headers (const_env true false true true)
          (req_set_idle 2 0x1234) world_bound = some (.TUSB_ERROR_NONE, w1)
      ∧ w1.calls = world_bound.calls ++ [Call.dcd_control_status 0]
      ∧ hidd_control_request_st usb_headers (const_env true false true true)
          (req_get_idle 2) w1 = some (.TUSB_ERROR_NONE, w2)
      ∧ w2.calls = w1.calls ++ [Call.usbd_control_xfer_st 1 buf 1]
      ∧ buf.take 1 = [0x12] := by
  obtain ⟨w1, w2, buf, h1, h2, h3, h4, _, h6⟩ :=
    C9_set_idle_get_idle usb_headers (const_env true false true true) world_bound .mse
      (req_set_idle 2 0x1234) (req_get_idle 2)
      (by unfold Headers.requests_distinct; decide) (by decide) (by decide) rfl rfl rfl rfl rfl
  exact ⟨w1, w2, buf, h1, h2, h3, h4, h6 (by decide)⟩

/-- Claim C10: whatever the state before, after `hidd_reset` the keyboard record
and the mouse record are entirely zero, so the idle rate of every role is 0; a
class GET_IDLE request then either reaches a record (interface number 0) and
transfers the one byte 0, or finds no interface and fails without a transfer. -/
theorem C10_reset_zeroes_records (H : Headers) (E : Env σ) (w : World σ)
    (req : tusb_control_request_t)
    (hd : H.requests_distinct)
    (hbuf : 0 < w._usbd_ctrl_buf.length)
    (htype : req.bmRequestType_bit.type = H.TUSB_REQ_TYPE_CLASS)
    (hreq : req.bRequest = H.HID_REQ_CONTROL_GET_IDLE) :
    (hidd_reset w)._kbd_itf = hidd_interface_t.zero
    ∧ (hidd_reset w)._mse_itf = hidd_interface_t.zero
    ∧ (∀ role : Role, ((hidd_reset w).itf role).idle_rate = 0)
    ∧ (req.wIndex % 256 = 0 →
        ∃ (w1 : World σ) (buf : List Nat),
          hidd_control_request_st H E req (hidd_reset w) = some (.TUSB_ERROR_NONE, w1)
          ∧ w1.calls = w.calls
              ++ [Call.usbd_control_xfer_st req.bmRequestType_bit.direction buf 1]
          ∧ buf.take 1 = [0])
    ∧ (req.wIndex % 256 ≠ 0 →
        hidd_control_request_st H E req (hidd_reset w)
          = some (.TUSB_ERROR_FAILED, hidd_reset w)) := by
  refine ⟨rfl, rfl, ?_, ?_, ?_⟩
  · intro role
    cases role <;> rfl
  · intro h0
    have hitf : get_interface_by_number (req.wIndex % 256) (hidd_reset w) = some .kbd := by
      simp [get_interface_by_number, hidd_reset, hidd_interface_t.zero, h0]
    have h := get_idle_step H E (hidd_reset w) .kbd req hd hitf htype hreq
    exact ⟨_, _, h, rfl, take_one_set_zero _ 0 hbuf⟩
  · intro h0
    have hitf : get_interface_by_number (req.wIndex % 256) (hidd_reset w) = none := by
      simp [get_interface_by_number, hidd_reset, hidd_interface_t.zero, h0]
    simp [hidd_control_request_st, hitf]

/-- Witness of C10: reset of the bound state with idle rates 7 and 0x12, then
GET_IDLE to interface 0. -/
theorem C10_reset_zeroes_records_witness :
    (hidd_reset world_idle)._kbd_itf = hidd_interface_t.zero
    ∧ (hidd_reset world_idle)._mse_itf = hidd_interface_t.zero
    ∧ ∃ (w1 : World Unit) (buf : List Nat),
        hidd_control_request_st usb_headers (const_env true false true true) (req_get_idle 0)
          (hidd_reset world_idle) = some (.TUSB_ERROR_NONE, w1)
        ∧ w1.calls = world_idle.calls ++ [Call.usbd_control_xfer_st 1 buf 1]
        ∧ buf.take 1 = [0] := by
  have h := C10_reset_zeroes_records usb_headers (const_env true false true true) world_idle
    (req_get_idle 0) (by unfold Headers.requests_distinct; decide) (by decide) rfl rfl
  exact ⟨h.1, h.2.1, h.2.2.2.1 rfl⟩

/-- The first `n` bytes of a buffer after `memcpy(buffer, src, n)` from a source
of at least `n` bytes. -/
theorem take_memcpy (dst src : List Nat) (n : Nat) (h : n ≤ src.length) :
    (memcpy dst src n).take n = src.take n := by
  unfold memcpy
  rw [List.take_append_eq_append_take]
  simp [List.length_take, Nat.min_eq_left h]

/-- What the handler does with a standard GET_DESCRIPTOR request for the report
descriptor of a found interface whose `report_len` fits the control buffer. -/
theorem get_descriptor_step (H : Headers) (E : Env σ) (w : World σ) (p_hid : Role)
    (req : tusb_control_request_t) (report_desc : List Nat)
    (hitf : get_interface_by_number (req.wIndex % 256) w = some p_hid)
    (htype : req.bmRequestType_bit.type = H.TUSB_REQ_TYPE_STANDARD)
    (hreq : req.bRequest = H.TUSB_REQ_GET_DESCRIPTOR)
    (hdesc : u16_high_u8 req.wValue = H.HID_DESC_TYPE_REPORT)
    (hfit : (w.itf p_hid).report_len ≤ H.CFG_TUD_CTRL_BUFSIZE)
    (hd : (w.itf p_hid).report_desc = some report_desc) :
    hidd_control_request_st H E req w
      = some (.TUSB_ERROR_NONE,
          { w with
              _usbd_ctrl_buf :=
                (E.usbd_control_xfer_st w.ext req.bmRequestType_bit.direction
                  (memcpy w._usbd_ctrl_buf report_desc (w.itf p_hid).report_len)
                  (w.itf p_hid).report_len).1
              ext :=
                (E.usbd_control_xfer_st w.ext req.bmRequestType_bit.direction
                  (memcpy w._usbd_ctrl_buf report_desc (w.itf p_hid).report_len)
                  (w.itf p_hid).report_len).2
              calls := w.calls ++
                [Call.usbd_control_xfer_st req.bmRequestType_bit.direction
                  (memcpy w._usbd_ctrl_buf report_desc (w.itf p_hid).report_len)
                  (w.itf p_hid).report_len] }) := by
  cases p_hid <;>
    simp_all [hidd_control_request_st, usbd_control_xfer_st, World.itf]

/-- Claim C11: for a standard GET_DESCRIPTOR request with descriptor type Report
to a found interface, if the record's `report_len` exceeds `CFG_TUD_CTRL_BUFSIZE`
the handler fails (`TUSB_ERROR_FAILED`), copies nothing and starts no transfer
(the state is unchanged); otherwise, the report descriptor being set and holding
at least `report_len` bytes, it starts exactly one control transfer, of exactly
`report_len` bytes, whose contents are the first `report_len` bytes of the
report descriptor. -/
theorem C11_get_descriptor_report (H : Headers) (E : Env σ) (w : World σ) (p_hid : Role)
    (req : tusb_control_request_t)
    (hitf : get_interface_by_number (req.wIndex % 256) w = some p_hid)
    (htype : req.bmRequestType_bit.type = H.TUSB_REQ_TYPE_STANDARD)
    (hreq : req.bRequest = H.TUSB_REQ_GET_DESCRIPTOR)
    (hdesc : u16_high_u8 req.wValue = H.HID_DESC_TYPE_REPORT) :
    (H.CFG_TUD_CTRL_BUFSIZE < (w.itf p_hid).report_len →
        hidd_control_request_st H E req w = some (.TUSB_ERROR_FAILED, w))
    ∧ (∀ report_desc : List Nat,
        (w.itf p_hid).report_len ≤ H.CFG_TUD_CTRL_BUFSIZE →
        (w.itf p_hid).report_desc = some report_desc →
        (w.itf p_hid).report_len ≤ report_desc.length →
        ∃ (w1 : World σ) (buf : List Nat),
          hidd_control_request_st H E req w = some (.TUSB_ERROR_NONE, w1)
          ∧ w1.calls = w.calls ++
              [Call.usbd_control_xfer_st req.bmRequestType_bit.direction buf
                (w.itf p_hid).report_len]
          ∧ buf.take (w.itf p_hid).report_len
              = report_desc.take (w.itf p_hid).report_len) := by
  constructor
  · intro hbig
    simp [hidd_control_request_st, hitf, htype, hreq, hdesc, Nat.not_le.mpr hbig]
  · intro d hfit hd hlen
    exact ⟨_, _, get_descriptor_step H E w p_hid req d hitf htype hreq hdesc hfit hd, rfl,
      take_memcpy _ _ _ hlen⟩

/-- Witness of C11: the mouse record with report length 300 against a control
buffer of 256 bytes fails; the keyboard record with report length 4 transfers
the 4 bytes of its report descriptor. -/
theorem C11_get_descriptor_report_witness :
    hidd_control_request_st usb_headers (const_env true false true true)
        (req_get_descriptor_report 2) world_bound_len
      = some (.TUSB_ERROR_FAILED, world_bound_len)
    ∧ ∃ (w1 : World Unit) (buf : List Nat),
        hidd_control_request_st usb_headers (const_env true false true true)
            (req_get_descriptor_report 1) world_bound_len = some (.TUSB_ERROR_NONE, w1)
        ∧ w1.calls = world_bound_len.calls ++ [Call.usbd_control_xfer_st 1 buf 4]
        ∧ buf.take 4 = [0x05, 0x01, 0x09, 0x06] :=
  ⟨(C11_get_descriptor_report usb_headers (const_env true false true true) world_bound_len
      .mse (req_get_descriptor_report 2) (by decide) rfl rfl rfl).1 (by decide),
   (C11_get_descriptor_report usb_headers (const_env true false true true) world_bound_len
      .kbd (req_get_descriptor_report 1) (by decide) rfl rfl rfl).2
      [0x05, 0x01, 0x09, 0x06] (by decide) rfl (by decide)⟩

/-- Counterexample to C12 as stated: a class GET_REPORT request of length 0 to
the bound keyboard interface, no callback being set; the handler fails and
starts no transfer, where the claim has it start a transfer of `wLength`
bytes. -/
theorem C12_counterexample :
    (world_bound.itf .kbd).get_report_cb.isNone = true
    ∧ get_interface_by_number ((req_get_report 1 0).wIndex % 256) world_bound = some .kbd
    ∧ (hidd_control_request_st usb_headers (const_env true false true true)
          (req_get_report 1 0) world_bound).map (fun r => (r.1, r.2.calls))
        = some (.TUSB_ERROR_FAILED, world_bound.calls) := by
  refine ⟨rfl, by decide, by decide⟩

/-- Claim C12, amended: for a class GET_REPORT request to a found interface, if
a get-report callback is set it is called with (high byte of `wValue`,
`report_buf`, `wLength`) and, when the length `n` it returns is positive,
exactly one control transfer of `n` bytes from `report_buf` (as the callback
left it) is started, while a returned length of 0 makes the handler fail with no
transfer; if no callback is set, no callback is called and, when `wLength` is
positive, exactly one transfer of `wLength` bytes from the unchanged
`report_buf` is started, while `wLength = 0` makes the handler fail with no
transfer and the state unchanged. -/
theorem C12_get_report (H : Headers) (E : Env σ) (w : World σ) (p_hid : Role)
    (req : tusb_control_request_t)
    (hsc : H.TUSB_REQ_TYPE_STANDARD ≠ H.TUSB_REQ_TYPE_CLASS)
    (hitf : get_interface_by_number (req.wIndex % 256) w = some p_hid)
    (htype : req.bmRequestType_bit.type = H.TUSB_REQ_TYPE_CLASS)
    (hreq : req.bRequest = H.HID_REQ_CONTROL_GET_REPORT) :
    (∀ cb : get_report_cb_t σ, (w.itf p_hid).get_report_cb = some cb →
        (0 < (cb w.ext (u16_high_u8 req.wValue) (w.itf p_hid).report_buf
                req.wLength).1.1 % 65536 →
          ∃ w1 : World σ,
            hidd_control_request_st H E req w = some (.TUSB_ERROR_NONE, w1)
            ∧ w1.calls = w.calls ++
                [Call.get_report_cb (u16_high_u8 req.wValue) (w.itf p_hid).report_buf
                   req.wLength,
                 Call.usbd_control_xfer_st req.bmRequestType_bit.direction
                   (cb w.ext (u16_high_u8 req.wValue) (w.itf p_hid).report_buf
                      req.wLength).1.2
                   ((cb w.ext (u16_high_u8 req.wValue) (w.itf p_hid).report_buf
                      req.wLength).1.1 % 65536)])
        ∧ ((cb w.ext (u16_high_u8 req.wValue) (w.itf p_hid).report_buf
                req.wLength).1.1 % 65536 = 0 →
          ∃ w1 : World σ,
            hidd_control_request_st H E req w = some (.TUSB_ERROR_FAILED, w1)
            ∧ w1.calls = w.calls ++
                [Call.get_report_cb (u16_high_u8 req.wValue) (w.itf p_hid).report_buf
                   req.wLength]))
    ∧ ((w.itf p_hid).get_report_cb = none →
        (0 < req.wLength →
          ∃ w1 : World σ,
            hidd_control_request_st H E req w = some (.TUSB_ERROR_NONE, w1)
            ∧ w1.calls = w.calls ++
                [Call.usbd_control_xfer_st req.bmRequestType_bit.direction
                   (w.itf p_hid).report_buf req.wLength])
        ∧ (req.wLength = 0 →
            hidd_control_request_st H E req w = some (.TUSB_ERROR_FAILED, w))) := by
  have hcs : H.TUSB_REQ_TYPE_CLASS ≠ H.TUSB_REQ_TYPE_STANDARD := fun e => hsc e.symm
  refine ⟨fun cb hcb => ⟨fun hn => ?_, fun hn => ?_⟩, fun hcb => ⟨fun hn => ?_, fun hn => ?_⟩⟩
  · rw [hidd_control_request_st]
    simp only [hitf, htype, hcs, hreq, hcb, if_false, if_true, gt_iff_lt, hn, not_true_eq_false]
    refine ⟨_, rfl, ?_⟩
    cases p_hid <;> simp [usbd_control_xfer_st, World.set_itf, World.itf]
  · rw [hidd_control_request_st]
    simp only [hitf, htype, hcs, hreq, hcb, if_false, if_true, gt_iff_lt, hn, Nat.lt_irrefl,
      not_false_eq_true]
    refine ⟨_, rfl, ?_⟩
    cases p_hid <;> simp [World.set_itf]
  · rw [hidd_control_request_st]
    simp only [hitf, htype, hcs, hreq, hcb, if_false, if_true, gt_iff_lt, hn, not_true_eq_false]
    refine ⟨_, rfl, ?_⟩
    cases p_hid <;> simp [usbd_control_xfer_st, World.set_itf, World.itf]
  · rw [hidd_control_request_st]
    simp only [hitf, htype, hcs, hreq, hcb, if_false, if_true, gt_iff_lt, hn, Nat.lt_irrefl,
      not_false_eq_true]

/-- Witness of C12 (amended): with the demo callback registered, a GET_REPORT
request of length 8 to the keyboard calls the callback and transfers the 3
bytes it returned; without a callback the same request transfers 8 bytes of the
unchanged buffer. -/
theorem C12_get_report_witness :
    (∃ w1 : World Unit,
        hidd_control_request_st usb_headers cb_env (req_get_report 1 8) world_bound_cb
          = some (.TUSB_ERROR_NONE, w1)
        ∧ w1.calls = world_bound_cb.calls ++
            [Call.get_report_cb 1 [0, 0, 0, 0, 0, 0, 0, 0, 0] 8,
             Call.usbd_control_xfer_st 1 [1, 2, 3, 0, 0, 0, 0, 0, 0] 3])
    ∧ (∃ w1 : World Unit,
        hidd_control_request_st usb_headers (const_env true false true true)
            (req_get_report 1 8) world_bound = some (.TUSB_ERROR_NONE, w1)
        ∧ w1.calls = world_bound.calls ++
            [Call.usbd_control_xfer_st 1 [0, 0, 0, 0, 0, 0, 0, 0, 0] 8]) :=
  ⟨((C12_get_report usb_headers cb_env world_bound_cb .kbd (req_get_report 1 8)
        (by decide) (by decide) rfl rfl).1 demo_get_report_cb rfl).1 (by decide),
   ((C12_get_report usb_headers (const_env true false true true) world_bound .kbd
        (req_get_report 1 8) (by decide) (by decide) rfl rfl).2 rfl).1 (by decide)⟩

/-- Claim C13: for a control request to a found interface that is (a) a standard
request other than GET_DESCRIPTOR with descriptor type Report, (b) a class
request other than GET_REPORT, SET_REPORT, SET_IDLE, GET_IDLE and GET_PROTOCOL
(SET_PROTOCOL for one), or (c) neither standard nor class, the handler makes
exactly one call, `dcd_control_stall`: no data transfer and no status stage is
started and both interface records and the control buffer are unchanged. -/
theorem C13_unsupported_request_stalls (H : Headers) (E : Env σ) (w : World σ)
    (p_hid : Role) (req : tusb_control_request_t)
    (hsc : H.TUSB_REQ_TYPE_STANDARD ≠ H.TUSB_REQ_TYPE_CLASS)
    (hitf : get_interface_by_number (req.wIndex % 256) w = some p_hid)
    (hcase :
      (req.bmRequestType_bit.type = H.TUSB_REQ_TYPE_STANDARD
        ∧ ¬ (req.bRequest = H.TUSB_REQ_GET_DESCRIPTOR
              ∧ u16_high_u8 req.wValue = H.HID_DESC_TYPE_REPORT))
      ∨ (req.bmRequestType_bit.type = H.TUSB_REQ_TYPE_CLASS
        ∧ req.bRequest ≠ H.HID_REQ_CONTROL_GET_REPORT
        ∧ req.bRequest ≠ H.HID_REQ_CONTROL_SET_REPORT
        ∧ req.bRequest ≠ H.HID_REQ_CONTROL_SET_IDLE
        ∧ req.bRequest ≠ H.HID_REQ_CONTROL_GET_IDLE
        ∧ req.bRequest ≠ H.HID_REQ_CONTROL_GET_PROTOCOL)
      ∨ (req.bmRequestType_bit.type ≠ H.TUSB_REQ_TYPE_STANDARD
        ∧ req.bmRequestType_bit.type ≠ H.TUSB_REQ_TYPE_CLASS)) :
    hidd_control_request_st H E req w
        = some (.TUSB_ERROR_NONE,
            { w with ext := E.dcd_control_stall w.ext
                     calls := w.calls ++ [Call.dcd_control_stall] })
    ∧ ∀ w1 : World σ, hidd_control_request_st H E req w = some (.TUSB_ERROR_NONE, w1) →
        w1.calls = w.calls ++ [Call.dcd_control_stall]
        ∧ w1._kbd_itf = w._kbd_itf ∧ w1._mse_itf = w._mse_itf
        ∧ w1._usbd_ctrl_buf = w._usbd_ctrl_buf := by
  have hcs : H.TUSB_REQ_TYPE_CLASS ≠ H.TUSB_REQ_TYPE_STANDARD := fun e => hsc e.symm
  have h : hidd_control_request_st H E req w
      = some (.TUSB_ERROR_NONE,
          { w with ext := E.dcd_control_stall w.ext
                   calls := w.calls ++ [Call.dcd_control_stall] }) := by
    rcases hcase with ⟨ht, hn⟩ | ⟨ht, h1, h2, h3, h4, h5⟩ | ⟨ht1, ht2⟩
    · simp [hidd_control_request_st, hitf, ht, hn, dcd_control_stall]
    · simp [hidd_control_request_st, hitf, ht, hcs, Ne.symm h1, Ne.symm h2, Ne.symm h3,
        Ne.symm h4, Ne.symm h5, dcd_control_stall]
    · simp [hidd_control_request_st, hitf, ht1, ht2, dcd_control_stall]
  refine ⟨h, fun w1 hw1 => ?_⟩
  rw [h] at hw1
  cases hw1
  exact ⟨rfl, rfl, rfl, rfl⟩

/-- Witness of C13: a class SET_PROTOCOL request to the bound keyboard interface
is answered with one stall. -/
theorem C13_unsupported_request_stalls_witness :
    hidd_control_request_st usb_headers (const_env true false true true)
        (req_set_protocol 1) world_bound
      = some (.TUSB_ERROR_NONE,
          { world_bound with calls := world_bound.calls ++ [Call.dcd_control_stall] }) :=
  (C13_unsupported_request_stalls usb_headers (const_env true false true true) world_bound
    .kbd (req_set_protocol 1) (by decide) (by decide)
    (Or.inr (Or.inl ⟨rfl, by decide, by decide, by decide, by decide, by decide⟩))).1

/-- Counterexample to C14 as stated: only the keyboard is bound, on interface
1, and the mouse record is still zero; a class SET_IDLE request with `wIndex`
0, which is not the interface number of any bound record, does not fail: the
lookup returns the zeroed mouse record, the handler returns `TUSB_ERROR_NONE`,
emits a status stage and writes the idle rate of the unbound mouse record. -/
theorem C14_counterexample :
    world_bound_cb._kbd_itf.itf_num = 1
    ∧ world_bound_cb._mse_itf = hidd_interface_t.zero
    ∧ (hidd_control_request_st usb_headers cb_env (req_set_idle 0 0x1234)
          world_bound_cb).map (fun r => (r.1, r.2.calls, r.2._mse_itf.idle_rate))
        = some (.TUSB_ERROR_NONE,
            world_bound_cb.calls ++ [Call.dcd_control_status 0], 0x12) := by
  refine ⟨by decide, rfl, by decide⟩

/-- Claim C14, amended: when the low byte of `wIndex` (the handler looks up
`(uint8_t) wIndex`) is the `itf_num` held by neither record, bound or still
zero, the handler fails with `TUSB_ERROR_FAILED` before anything else: the state
is unchanged, so no transfer, status or stall is emitted and no record
changes. -/
theorem C14_unknown_interface_fails (H : Headers) (E : Env σ) (w : World σ)
    (req : tusb_control_request_t)
    (hk : req.wIndex % 256 ≠ w._kbd_itf.itf_num)
    (hm : req.wIndex % 256 ≠ w._mse_itf.itf_num) :
    get_interface_by_number (req.wIndex % 256) w = none
    ∧ hidd_control_request_st H E req w = some (.TUSB_ERROR_FAILED, w)
    ∧ ∀ w1 : World σ, ∀ e : tusb_error_t,
        hidd_control_request_st H E req w = some (e, w1) →
          e = .TUSB_ERROR_FAILED ∧ w1.calls = w.calls
          ∧ w1._kbd_itf = w._kbd_itf ∧ w1._mse_itf = w._mse_itf := by
  have hitf : get_interface_by_number (req.wIndex % 256) w = none := by
    simp [get_interface_by_number, hk, hm]
  have h : hidd_control_request_st H E req w = some (.TUSB_ERROR_FAILED, w) := by
    simp [hidd_control_request_st, hitf]
  refine ⟨hitf, h, fun w1 e he => ?_⟩
  rw [h] at he
  cases he
  exact ⟨rfl, rfl, rfl, rfl⟩

/-- Witness of C14: a GET_IDLE request to interface 5 in the bound state, where
the records have the numbers 1 and 2. -/
theorem C14_unknown_interface_fails_witness :
    hidd_control_request_st usb_headers (const_env true false true true) (req_get_idle 5)
        world_bound = some (.TUSB_ERROR_FAILED, world_bound) :=
  (C14_unknown_interface_fails usb_headers (const_env true false true true) world_bound
    (req_get_idle 5) (by decide) (by decide)).2.1

/-- The effect of one `hidd_open` call on a record: `idle_rate` and `report_buf`
are never written, and the four fields `itf_num`, `ep_in`, `report_len` and
`report_id` are either all as before, or the call succeeded on a chain with the
protocol of the record's role and `ep_in` is the chain's endpoint address. -/
theorem hidd_open_frame (H : Headers) (E : Env σ) (desc_itf : Nat → Nat) (p_length : Nat)
    (w : World σ) (role : Role) :
    ((hidd_open H E desc_itf p_length w).2.2.itf role).idle_rate = (w.itf role).idle_rate
    ∧ ((hidd_open H E desc_itf p_length w).2.2.itf role).report_buf = (w.itf role).report_buf
    ∧ ((((hidd_open H E desc_itf p_length w).2.2.itf role).itf_num = (w.itf role).itf_num
          ∧ ((hidd_open H E desc_itf p_length w).2.2.itf role).ep_in = (w.itf role).ep_in
          ∧ ((hidd_open H E desc_itf p_length w).2.2.itf role).report_len
              = (w.itf role).report_len
          ∧ ((hidd_open H E desc_itf p_length w).2.2.itf role).report_id
              = (w.itf role).report_id)
        ∨ ((hidd_open H E desc_itf p_length w).1 = .TUSB_ERROR_NONE
          ∧ chain_protocol H desc_itf = role.protocol H
          ∧ ((hidd_open H E desc_itf p_length w).2.2.itf role).ep_in
              = chain_ep H desc_itf)) := by
  by_cases hhid : H.HID_DESC_TYPE_HID
      = rd8 desc_itf (hidd_open_desc_hid H desc_itf + H.hid_bDescriptorType)
  swap
  · simp [hidd_open, hhid]
  by_cases hedpt : H.TUSB_DESC_ENDPOINT
      = rd8 desc_itf (hidd_open_desc_edpt H desc_itf + H.edpt_bDescriptorType)
  swap
  · simp [hidd_open, ← hhid, hedpt]
  by_cases hboot : rd8 desc_itf H.itf_bInterfaceSubClass = H.HID_SUBCLASS_BOOT
  swap
  · simp [hidd_open, ← hhid, ← hedpt, hboot]
  by_cases hk : rd8 desc_itf H.itf_bInterfaceProtocol = H.HID_PROTOCOL_KEYBOARD <;>
  by_cases hm : rd8 desc_itf H.itf_bInterfaceProtocol = H.HID_PROTOCOL_MOUSE
  · have hkm : H.HID_PROTOCOL_KEYBOARD = H.HID_PROTOCOL_MOUSE := hk.symm.trans hm
    simp only [hidd_open, ← hhid, ← hedpt, hboot, hk, hkm, ne_eq, not_true_eq_false,
      and_self, if_true, if_false, chain_protocol, chain_ep, Role.protocol]
    split_ifs <;> cases role <;>
      simp [World.itf, World.set_itf, dcd_edpt_open, hkm]
  · simp only [hidd_open, ← hhid, ← hedpt, hboot, hk, ne_eq, not_true_eq_false,
      false_and, if_true, if_false, chain_protocol, chain_ep, Role.protocol]
    have hkm : ¬ H.HID_PROTOCOL_KEYBOARD = H.HID_PROTOCOL_MOUSE := fun e => hm (hk.trans e)
    simp only [hkm, if_false]
    split_ifs <;> cases role <;>
      simp [World.itf, World.set_itf, dcd_edpt_open]
  · simp only [hidd_open, ← hhid, ← hedpt, hboot, hm, ne_eq, not_true_eq_false,
      and_false, if_true, if_false, chain_protocol, chain_ep, Role.protocol]
    have hmk : ¬ H.HID_PROTOCOL_MOUSE = H.HID_PROTOCOL_KEYBOARD := fun e => hk (hm.trans e)
    simp only [hmk, if_false]
    split_ifs <;> cases role <;>
      simp [World.itf, World.set_itf, dcd_edpt_open]
  · simp [hidd_open, ← hhid, ← hedpt, hboot, hk, hm]

/-- Counterexample to C15 as stated: in the state produced by `hidd_reset`, the
lookup by interface number and the lookup by endpoint address both return the
keyboard record, not none, for the argument 0. -/
theorem C15_counterexample :
    get_interface_by_number 0 (hidd_reset world_idle) = some .kbd
    ∧ get_interface_by_edpt 0 (hidd_reset world_idle) = some .kbd := by
  constructor <;> decide

/-- Claim C15, amended: in the state produced by `hidd_reset`, the lookup by
interface number and the lookup by endpoint address both return none for every
argument other than 0, and both return the keyboard record for the argument 0
(the zeroed `itf_num` and `ep_in` are 0). -/
theorem C15_reset_lookups (w : World σ) (n : Nat) :
    get_interface_by_number n (hidd_reset w) = (if n = 0 then some .kbd else none)
    ∧ get_interface_by_edpt n (hidd_reset w) = (if n = 0 then some .kbd else none) := by
  constructor
  · by_cases h : n = 0 <;>
      simp [get_interface_by_number, hidd_reset, hidd_interface_t.zero, h]
  · by_cases h : n = 0 <;>
      simp [get_interface_by_edpt, hidd_reset, hidd_interface_t.zero, h]

/-- After a sequence of `hidd_open` calls the `ep_in` of a record is what it was
before, or the endpoint address of a chain of the sequence that has the protocol
of the record's role. -/
theorem hidd_open_seq_ep_in (H : Headers) (E : Env σ) (role : Role) :
    ∀ (chains : List ((Nat → Nat) × Nat)) (w : World σ),
      ((hidd_open_seq H E chains w).itf role).ep_in = (w.itf role).ep_in
      ∨ ∃ c ∈ chains, chain_protocol H c.1 = role.protocol H
          ∧ ((hidd_open_seq H E chains w).itf role).ep_in = chain_ep H c.1 := by
  intro chains
  induction chains with
  | nil => intro w; exact Or.inl rfl
  | cons c rest ih =>
    intro w
    obtain ⟨desc_itf, p_length⟩ := c
    simp only [hidd_open_seq]
    rcases ih (hidd_open H E desc_itf p_length w).2.2 with h | ⟨c, hc, hp, he⟩
    · rcases (hidd_open_frame H E desc_itf p_length w role).2.2 with hsame | ⟨_, hp, he⟩
      · exact Or.inl (h.trans hsame.2.1)
      · exact Or.inr ⟨(desc_itf, p_length), List.mem_cons_self _ _, hp, h.trans he⟩
    · exact Or.inr ⟨c, List.mem_cons_of_mem _ hc, hp, he⟩

/-- Counterexample to C16 as stated: from the reset state, the boot keyboard
chain and a boot mouse chain that names the same endpoint 0x81 are bound, both
calls succeed, and the keyboard and mouse records hold the same `ep_in`. -/
theorem C16_counterexample :
    (hidd_open usb_headers (const_env true false true true) chain_boot_keyboard 0
        (hidd_reset world0)).1 = .TUSB_ERROR_NONE
    ∧ (hidd_open usb_headers (const_env true false true true) chain_boot_mouse_ep81 0
        (hidd_open usb_headers (const_env true false true true) chain_boot_keyboard 0
          (hidd_reset world0)).2.2).1 = .TUSB_ERROR_NONE
    ∧ (hidd_open_seq usb_headers (const_env true false true true)
        [(chain_boot_keyboard, 0), (chain_boot_mouse_ep81, 0)]
        (hidd_reset world0))._kbd_itf.ep_in = 0x81
    ∧ (hidd_open_seq usb_headers (const_env true false true true)
        [(chain_boot_keyboard, 0), (chain_boot_mouse_ep81, 0)]
        (hidd_reset world0))._mse_itf.ep_in = 0x81 := by
  refine ⟨by decide, by decide, by decide, by decide⟩

/-- Claim C16, amended: in every state reached from `hidd_reset` by a sequence
of `hidd_open` calls, the `ep_in` of each record is 0 or the endpoint address of
a chain of the sequence that has the protocol of the record's role; so the
keyboard and mouse records, once both hold a non-zero `ep_in`, hold different
ones whenever no chain with the keyboard protocol names the endpoint address of
a chain with the mouse protocol.  Nothing in `hidd_open` rejects a chain that
names the endpoint of the other record. -/
theorem C16_bound_endpoints (H : Headers) (E : Env σ) (chains : List ((Nat → Nat) × Nat))
    (w : World σ) :
    (∀ role : Role,
        ((hidd_open_seq H E chains (hidd_reset w)).itf role).ep_in = 0
        ∨ ∃ c ∈ chains, chain_protocol H c.1 = role.protocol H
            ∧ ((hidd_open_seq H E chains (hidd_reset w)).itf role).ep_in = chain_ep H c.1)
    ∧ ((∀ c1 ∈ chains, ∀ c2 ∈ chains,
          chain_protocol H c1.1 = H.HID_PROTOCOL_KEYBOARD →
          chain_protocol H c2.1 = H.HID_PROTOCOL_MOUSE →
          chain_ep H c1.1 ≠ chain_ep H c2.1) →
        (hidd_open_seq H E chains (hidd_reset w))._kbd_itf.ep_in ≠ 0 →
        (hidd_open_seq H E chains (hidd_reset w))._mse_itf.ep_in ≠ 0 →
        (hidd_open_seq H E chains (hidd_reset w))._kbd_itf.ep_in
          ≠ (hidd_open_seq H E chains (hidd_reset w))._mse_itf.ep_in) := by
  have hinv : ∀ role : Role,
      ((hidd_open_seq H E chains (hidd_reset w)).itf role).ep_in = 0
      ∨ ∃ c ∈ chains, chain_protocol H c.1 = role.protocol H
          ∧ ((hidd_open_seq H E chains (hidd_reset w)).itf role).ep_in = chain_ep H c.1 := by
    intro role
    rcases hidd_open_seq_ep_in H E role chains (hidd_reset w) with h | h
    · left
      rw [h]
      cases role <;> rfl
    · exact Or.inr h
  refine ⟨hinv, fun hdiff hk hm heq => ?_⟩
  rcases hinv .kbd with h0 | ⟨c1, hc1, hp1, he1⟩
  · exact hk h0
  · rcases hinv .mse with h0 | ⟨c2, hc2, hp2, he2⟩
    · exact hm h0
    · apply hdiff c1 hc1 c2 hc2 hp1 hp2
      rw [← he1, ← he2]
      exact heq

/-- Witness of C16 (amended): the boot keyboard chain (endpoint 0x81) and the
boot mouse chain (endpoint 0x82) bound from the reset state. -/
theorem C16_bound_endpoints_witness :
    (hidd_open_seq usb_headers (const_env true false true true)
        [(chain_boot_keyboard, 0), (chain_boot_mouse, 0)] (hidd_reset world0))._kbd_itf.ep_in
      ≠ (hidd_open_seq usb_headers (const_env true false true true)
        [(chain_boot_keyboard, 0), (chain_boot_mouse, 0)] (hidd_reset world0))._mse_itf.ep_in := by
  refine (C16_bound_endpoints usb_headers (const_env true false true true)
    [(chain_boot_keyboard, 0), (chain_boot_mouse, 0)] world0).2 ?_ (by decide) (by decide)
  intro c1 h1 c2 h2 hp1 hp2
  simp only [List.mem_cons, List.mem_singleton, List.not_mem_nil, or_false] at h1 h2
  rcases h1 with rfl | rfl <;> rcases h2 with rfl | rfl
  · exact absurd hp2 (by decide)
  · decide
  · exact absurd hp1 (by decide)
  · exact absurd hp1 (by decide)

/-- The initialisers of the table for a (0x61) and A (0x41): the same key, shift
0 and 1. -/
theorem init_a_A :
    HID_ASCII_TO_KEYCODE_init[0x61]? = some (0, some .HID_KEY_A)
    ∧ HID_ASCII_TO_KEYCODE_init[0x41]? = some (1, some .HID_KEY_A)
    ∧ HID_ASCII_TO_KEYCODE_init.length = 128 := by
  decide!

/-- Claim C17, evaluated where it fails: for the string aA the characters
differ and a is not last, so `tud_hid_keyboard_send_string` sends no key-up
report between them (key-down a, wait, key-down A, wait, key-up, wait), yet the
two key-down reports carry the same keycode `HID_KEY_A`, whatever the header
values; on a mounted, idle device the two reports are keycode 4 without and
with the left-shift modifier. -/
theorem C17_same_keycode_without_key_up (H : Headers) (E : Env σ) (d : Nat) (w : World σ) :
    tud_hid_keyboard_send_string H E [0x61, 0x41] d w
      = run_steps H E [.key_down 0x61, .wait d, .key_down 0x41, .wait d, .key_up, .wait d] w
    ∧ (HID_ASCII_TO_KEYCODE_read H E (0x61 % 256)).keycode = H.HID_KEY .HID_KEY_A
    ∧ (HID_ASCII_TO_KEYCODE_read H E (0x41 % 256)).keycode = H.HID_KEY .HID_KEY_A
    ∧ (tud_hid_keyboard_send_string usb_headers (const_env true false true true)
          [0x61, 0x41] 5 world0).calls
        = [Call.dcd_edpt_xfer 0 [0, 0, 4, 0, 0, 0, 0, 0, 0] 8,
           Call.timeout_blocking_wait 5,
           Call.dcd_edpt_xfer 0 [2, 0, 4, 0, 0, 0, 0, 0, 0] 8,
           Call.timeout_blocking_wait 5,
           Call.dcd_edpt_xfer 0 [0, 0, 0, 0, 0, 0, 0, 0, 0] 8,
           Call.timeout_blocking_wait 5] := by
  refine ⟨?_, ?_, ?_, ?_⟩
  · rw [send_string_eq_run_steps H E d [0x61, 0x41] w (by decide)]
    congr 1
  · simp [HID_ASCII_TO_KEYCODE_read, HID_ASCII_TO_KEYCODE, List.getElem?_map, init_a_A.1,
      hid_ascii_to_keycode_entry_t.of_init]
  · simp [HID_ASCII_TO_KEYCODE_read, HID_ASCII_TO_KEYCODE, List.getElem?_map, init_a_A.2.1,
      hid_ascii_to_keycode_entry_t.of_init]
  · decide!

/-- Claim C18, evaluated where it fails: the table has 128 entries, and the
index `(uint8_t)ch` is inside it exactly when the character value is below 128;
for the character value 0x80 the index is 128, past the last entry, and the
read yields whatever lies behind the table. -/
theorem C18_index_past_table (H : Headers) (E : Env σ) :
    (HID_ASCII_TO_KEYCODE H).length = 128
    ∧ (∀ ch : Nat, ch % 256 < (HID_ASCII_TO_KEYCODE H).length ↔ ch % 256 < 128)
    ∧ ¬ (0x80 % 256 < (HID_ASCII_TO_KEYCODE H).length)
    ∧ (HID_ASCII_TO_KEYCODE H)[0x80 % 256]? = none
    ∧ HID_ASCII_TO_KEYCODE_read H E (0x80 % 256) = E.past_HID_ASCII_TO_KEYCODE 0x80 := by
  have hlen : (HID_ASCII_TO_KEYCODE H).length = 128 := by
    simp [HID_ASCII_TO_KEYCODE, init_a_A.2.2]
  have hnone : (HID_ASCII_TO_KEYCODE H)[0x80 % 256]? = none := by
    apply List.getElem?_eq_none
    rw [hlen]
  refine ⟨hlen, fun ch => by rw [hlen], by rw [hlen]; decide, hnone, ?_⟩
  simp only [HID_ASCII_TO_KEYCODE_read, hnone]

/-- Claim C19, evaluated where it fails: a class GET_REPORT request of length 64
to the bound keyboard interface, no callback being set, starts a control
transfer of 64 bytes from `report_buf`, which has `REPORT_BUFSIZE` = 9 bytes. -/
theorem C19_get_report_overreads :
    (world_bound.itf .kbd).report_buf.length = REPORT_BUFSIZE
    ∧ REPORT_BUFSIZE < (req_get_report 1 64).wLength
    ∧ (hidd_control_request_st usb_headers (const_env true false true true)
          (req_get_report 1 64) world_bound).map (fun r => (r.1, r.2.calls))
        = some (.TUSB_ERROR_NONE,
            world_bound.calls ++
              [Call.usbd_control_xfer_st 1 (world_bound.itf .kbd).report_buf 64]) := by
  refine ⟨by decide, by decide, by decide⟩

/-- Claim C20: whenever `hidd_open` returns an error, the `itf_num`, `ep_in`,
`report_len`, `report_id`, `idle_rate` and `report_buf` of the keyboard record
and of the mouse record are what they were before the call, and so both lookups
give the same result as before for every argument. -/
theorem C20_open_error_keeps_records (H : Headers) (E : Env σ) (desc_itf : Nat → Nat)
    (p_length : Nat) (w : World σ)
    (herr : (hidd_open H E desc_itf p_length w).1 ≠ .TUSB_ERROR_NONE) :
    (∀ role : Role,
        ((hidd_open H E desc_itf p_length w).2.2.itf role).itf_num = (w.itf role).itf_num
        ∧ ((hidd_open H E desc_itf p_length w).2.2.itf role).ep_in = (w.itf role).ep_in
        ∧ ((hidd_open H E desc_itf p_length w).2.2.itf role).report_len
            = (w.itf role).report_len
        ∧ ((hidd_open H E desc_itf p_length w).2.2.itf role).report_id
            = (w.itf role).report_id
        ∧ ((hidd_open H E desc_itf p_length w).2.2.itf role).idle_rate
            = (w.itf role).idle_rate
        ∧ ((hidd_open H E desc_itf p_length w).2.2.itf role).report_buf
            = (w.itf role).report_buf)
    ∧ (∀ n : Nat, get_interface_by_number n (hidd_open H E desc_itf p_length w).2.2
        = get_interface_by_number n w)
    ∧ (∀ n : Nat, get_interface_by_edpt n (hidd_open H E desc_itf p_length w).2.2
        = get_interface_by_edpt n w) := by
  have hall : ∀ role : Role,
      ((hidd_open H E desc_itf p_length w).2.2.itf role).itf_num = (w.itf role).itf_num
      ∧ ((hidd_open H E desc_itf p_length w).2.2.itf role).ep_in = (w.itf role).ep_in
      ∧ ((hidd_open H E desc_itf p_length w).2.2.itf role).report_len
          = (w.itf role).report_len
      ∧ ((hidd_open H E desc_itf p_length w).2.2.itf role).report_id
          = (w.itf role).report_id
      ∧ ((hidd_open H E desc_itf p_length w).2.2.itf role).idle_rate
          = (w.itf role).idle_rate
      ∧ ((hidd_open H E desc_itf p_length w).2.2.itf role).report_buf
          = (w.itf role).report_buf := by
    intro role
    obtain ⟨hidle, hbuf, hrest⟩ := hidd_open_frame H E desc_itf p_length w role
    rcases hrest with ⟨h1, h2, h3, h4⟩ | ⟨hok, _, _⟩
    · exact ⟨h1, h2, h3, h4, hidle, hbuf⟩
    · exact absurd hok herr
  have hk := hall .kbd
  have hm := hall .mse
  simp only [World.itf] at hk hm
  refine ⟨hall, fun n => ?_, fun n => ?_⟩
  · simp only [get_interface_by_number, hk.1, hm.1]
  · simp only [get_interface_by_edpt, hk.2.1, hm.2.1]

/-- Witness of C20: on the bound state with idle rates set, the driver refuses
to open the endpoint of a second boot mouse chain (endpoint 0x81); `hidd_open`
returns `TUSB_ERROR_DCD_FAILED` and the mouse record keeps its endpoint 0x82 and
its idle rate 0x12, and the lookup of endpoint 0x82 still finds it. -/
theorem C20_open_error_keeps_records_witness :
    (hidd_open usb_headers (const_env true false true false) chain_boot_mouse_ep81 0
        world_idle).1 = .TUSB_ERROR_DCD_FAILED
    ∧ ((hidd_open usb_headers (const_env true false true false) chain_boot_mouse_ep81 0
          world_idle).2.2.itf .mse).ep_in = 0x82
    ∧ ((hidd_open usb_headers (const_env true false true false) chain_boot_mouse_ep81 0
          world_idle).2.2.itf .mse).idle_rate = 0x12
    ∧ get_interface_by_edpt 0x82 (hidd_open usb_headers (const_env true false true false)
          chain_boot_mouse_ep81 0 world_idle).2.2 = some .mse := by
  have h := C20_open_error_keeps_records usb_headers (const_env true false true false)
    chain_boot_mouse_ep81 0 world_idle (by decide)
  refine ⟨by decide, (h.1 .mse).2.1.trans (by decide), (h.1 .mse).2.2.2.2.1.trans (by decide),
    (h.2.2 0x82).trans (by decide)⟩

end HidDevice
